import Mathlib

/-!
# Verification of the Smart-Traffic-Simulator core

A shallow embedding of the simulation core of `src/main.py`: the vehicle
kinematics (`Car.update`), the signal controller state machine
(`SignalController`, fixed and adaptive variants), the pressure estimator,
and the metrics collector.  Python floats are modelled as exact rationals
(`ℚ`); mutation is modelled by explicit state passing.
-/

set_option maxHeartbeats 1000000

namespace Traffic

/- Configuration constants of `Config` in `src/main.py` (the subset used by
the simulation core; colours and UI geometry are irrelevant here). -/
namespace Config

def WINDOW_WIDTH : ℚ := 1200
def WINDOW_HEIGHT : ℚ := 800
def FPS : ℚ := 60

def ROAD_WIDTH : ℚ := 200
def LANE_WIDTH : ℚ := 40
def INTERSECTION_SIZE : ℚ := 200

def CAR_MAX_SPEED : ℚ := 4
def CAR_ACCELERATION : ℚ := 1/10
def SAFE_DISTANCE : ℚ := 35

def FIXED_GREEN_TIME : ℚ := 20
def FIXED_YELLOW_TIME : ℚ := 3
def FIXED_ALL_RED_TIME : ℚ := 2

def AI_UPDATE_INTERVAL : ℚ := 2
def MIN_GREEN_TIME : ℚ := 12
def MAX_GREEN_TIME : ℚ := 50
def COOLDOWN_TIME : ℚ := 6
def ANTI_STARVATION_TIME : ℚ := 120
def PRESSURE_ALPHA : ℚ := 3/10
def PRESSURE_BETA : ℚ := 4/10
def HYSTERESIS_MARGIN : ℚ := 1/2

end Config

/-- `SignalState` enum of `src/main.py`. -/
inductive SignalState where
  | GREEN
  | YELLOW
  | RED
  | ALL_RED
  deriving DecidableEq, Repr

/-- `Direction` enum of `src/main.py`. -/
inductive Direction where
  | NORTH
  | SOUTH
  | EAST
  | WEST
  deriving DecidableEq, Repr

/-- The two logical roads, the strings `'main'` and `'side'` of the Python code. -/
inductive Road where
  | main
  | side
  deriving DecidableEq, Repr

/-- The other road. -/
def Road.other : Road → Road
  | .main => .side
  | .side => .main

/-- The two controller modes, the strings `"fixed"` and `"ai"` of the Python code. -/
inductive ControllerType where
  | fixed
  | ai
  deriving DecidableEq, Repr

/-- Python float `%` for a positive modulus: `a % b = a - b*⌊a/b⌋`. -/
def fmod (a b : ℚ) : ℚ := a - b * ⌊a / b⌋

/-- The state of one vehicle (`Car.__init__` in `src/main.py`; the colour and
the drawing extents are irrelevant to the dynamics and are omitted). -/
structure Car where
  x : ℚ
  y : ℚ
  direction : Direction
  speed : ℚ
  max_speed : ℚ
  is_ambulance : Bool
  spawn_time : ℚ
  waiting_time : ℚ
  is_stopped : Bool
  exit_time : Option ℚ
  deriving DecidableEq, Repr

/-- Construct a freshly spawned car (`Car.__init__`). -/
def Car.spawn (x y : ℚ) (direction : Direction) (is_ambulance : Bool)
    (spawn_sim_time : ℚ) : Car :=
  { x := x, y := y, direction := direction, speed := 0
    max_speed := Config.CAR_MAX_SPEED, is_ambulance := is_ambulance
    spawn_time := spawn_sim_time, waiting_time := 0, is_stopped := false
    exit_time := none }

/-- The state of the signal controller (`SignalController.__init__`).
The Python `deque(maxlen=200)` arrival histories are lists with explicit
capacity handling in `record_arrival`. -/
structure SignalController where
  controller_type : ControllerType
  main_signal : SignalState
  side_signal : SignalState
  signal_timer : ℚ
  current_green_time : ℚ
  last_ai_update : ℚ
  last_switch_time : ℚ
  main_last_green : ℚ
  side_last_green : ℚ
  switching : Bool
  switch_stage : ℕ
  switch_start_time : ℚ
  arrival_history_main : List ℚ
  arrival_history_side : List ℚ
  deriving DecidableEq, Repr

/-- `SignalController.__init__(controller_type, start_sim_time)`. -/
def SignalController.init (controller_type : ControllerType)
    (start_sim_time : ℚ) : SignalController :=
  { controller_type := controller_type
    main_signal := .GREEN
    side_signal := .RED
    signal_timer := 0
    current_green_time := 0
    last_ai_update := start_sim_time
    last_switch_time := start_sim_time - Config.COOLDOWN_TIME
    main_last_green := start_sim_time
    side_last_green := start_sim_time
    switching := false
    switch_stage := 0
    switch_start_time := start_sim_time
    arrival_history_main := []
    arrival_history_side := [] }

/-- `SignalController.get_signal_state(road)`. -/
def SignalController.get_signal_state (s : SignalController) (road : Road) : SignalState :=
  match road with
  | .main => s.main_signal
  | .side => s.side_signal

/-- The last-green timestamp of a road (`main_last_green` / `side_last_green`). -/
def SignalController.lastGreen (s : SignalController) (road : Road) : ℚ :=
  match road with
  | .main => s.main_last_green
  | .side => s.side_last_green

/-- The arrival history of a road (`self.arrival_history[road]`). -/
def SignalController.history (s : SignalController) (road : Road) : List ℚ :=
  match road with
  | .main => s.arrival_history_main
  | .side => s.arrival_history_side

/-- `SignalController.record_arrival(road, sim_time)`: append to a
`deque(maxlen=200)`, evicting the oldest entry when full. -/
def SignalController.record_arrival (s : SignalController) (road : Road)
    (sim_time : ℚ) : SignalController :=
  let push : List ℚ → List ℚ := fun h =>
    if h.length < 200 then h ++ [sim_time] else h.tail ++ [sim_time]
  match road with
  | .main => { s with arrival_history_main := push s.arrival_history_main }
  | .side => { s with arrival_history_side := push s.arrival_history_side }

/-- `Car.should_stop_at_signal(signal_controller)`: true when the car is inside
the 50-pixel stop band of the stop line for its direction and the signal of
its road is not GREEN. -/
def Car.should_stop_at_signal (c : Car) (signal_controller : SignalController) : Bool :=
  let cx : ℚ := Config.WINDOW_WIDTH / 2
  let cy : ℚ := Config.WINDOW_HEIGHT / 2
  let half : ℚ := Config.INTERSECTION_SIZE / 2
  let stop_band : ℚ := 50
  match c.direction with
  | .NORTH =>
      let stop_y := cy + half
      decide ((stop_y - stop_band) < c.y ∧ c.y < (stop_y + stop_band)) &&
        decide (signal_controller.get_signal_state .main ≠ .GREEN)
  | .SOUTH =>
      let stop_y := cy - half
      decide ((stop_y - stop_band) < c.y ∧ c.y < (stop_y + stop_band)) &&
        decide (signal_controller.get_signal_state .main ≠ .GREEN)
  | .EAST =>
      let stop_x := cx - half
      decide ((stop_x - stop_band) < c.x ∧ c.x < (stop_x + stop_band)) &&
        decide (signal_controller.get_signal_state .side ≠ .GREEN)
  | .WEST =>
      let stop_x := cx + half
      decide ((stop_x - stop_band) < c.x ∧ c.x < (stop_x + stop_band)) &&
        decide (signal_controller.get_signal_state .side ≠ .GREEN)

/-- The body of the per-`other` test of `Car.get_car_ahead`: `other` travels in
the same direction, lies ahead within `SAFE_DISTANCE` along the travel axis,
and has lateral offset below `LANE_WIDTH`.  The Python `other is self` guard
is extensionally redundant: a car never lies strictly ahead of itself
(the gap `0 < gap` test fails). -/
def Car.isAhead (c other : Car) : Bool :=
  decide (other.direction = c.direction) &&
  match c.direction with
  | .NORTH => decide (other.y < c.y ∧ |other.x - c.x| < Config.LANE_WIDTH ∧
      0 < c.y - other.y ∧ c.y - other.y < Config.SAFE_DISTANCE)
  | .SOUTH => decide (other.y > c.y ∧ |other.x - c.x| < Config.LANE_WIDTH ∧
      0 < other.y - c.y ∧ other.y - c.y < Config.SAFE_DISTANCE)
  | .EAST => decide (other.x > c.x ∧ |other.y - c.y| < Config.LANE_WIDTH ∧
      0 < other.x - c.x ∧ other.x - c.x < Config.SAFE_DISTANCE)
  | .WEST => decide (other.x < c.x ∧ |other.y - c.y| < Config.LANE_WIDTH ∧
      0 < c.x - other.x ∧ c.x - other.x < Config.SAFE_DISTANCE)

/-- `Car.get_car_ahead(cars)`: the first car of the list that qualifies as
being ahead (Python returns from inside the loop at the first hit). -/
def Car.get_car_ahead (c : Car) (cars : List Car) : Option Car :=
  cars.find? c.isAhead

/-- `Car.update(cars, signal_controller, dt_sim)`: one kinematic step. -/
def Car.update (c : Car) (cars : List Car) (signal_controller : SignalController)
    (dt_sim : ℚ) : Car :=
  let step_scale := dt_sim * Config.FPS
  let should_stop0 := c.should_stop_at_signal signal_controller
  let should_stop := if c.is_ambulance then false else should_stop0
  let car_ahead := c.get_car_ahead cars
  let speed' :=
    if should_stop || car_ahead.isSome then
      max 0 (c.speed - Config.CAR_ACCELERATION * 2 * step_scale)
    else
      min c.max_speed (c.speed + Config.CAR_ACCELERATION * step_scale)
  let is_stopped' : Bool :=
    if should_stop || car_ahead.isSome then decide (speed' ≤ 1/1000) else false
  let delta := speed' * step_scale
  let x' := match c.direction with
    | .EAST => c.x + delta
    | .WEST => c.x - delta
    | _ => c.x
  let y' := match c.direction with
    | .NORTH => c.y - delta
    | .SOUTH => c.y + delta
    | _ => c.y
  let waiting' :=
    if is_stopped' ∧ |x' - c.x| < 1/1000 ∧ |y' - c.y| < 1/1000 then
      c.waiting_time + dt_sim
    else c.waiting_time
  { c with speed := speed', is_stopped := is_stopped', x := x', y := y'
           waiting_time := waiting' }

/-- `Car.is_off_screen()`. -/
def Car.is_off_screen (c : Car) : Bool :=
  let m : ℚ := 100
  decide (c.x < -m ∨ c.x > Config.WINDOW_WIDTH + m ∨
          c.y < -m ∨ c.y > Config.WINDOW_HEIGHT + m)

/-- `SignalController.update_fixed_signals()`: the fixed cyclic schedule,
a function of `signal_timer mod cycle`. -/
def SignalController.update_fixed_signals (s : SignalController) : SignalController :=
  let cycle := Config.FIXED_GREEN_TIME * 2 + Config.FIXED_YELLOW_TIME * 2 +
    Config.FIXED_ALL_RED_TIME * 2
  let pos := fmod s.signal_timer cycle
  if pos < Config.FIXED_GREEN_TIME then
    { s with main_signal := .GREEN, side_signal := .RED }
  else if pos < Config.FIXED_GREEN_TIME + Config.FIXED_YELLOW_TIME then
    { s with main_signal := .YELLOW, side_signal := .RED }
  else if pos < Config.FIXED_GREEN_TIME + Config.FIXED_YELLOW_TIME +
      Config.FIXED_ALL_RED_TIME then
    { s with main_signal := .ALL_RED, side_signal := .ALL_RED }
  else if pos < Config.FIXED_GREEN_TIME * 2 + Config.FIXED_YELLOW_TIME +
      Config.FIXED_ALL_RED_TIME then
    { s with main_signal := .RED, side_signal := .GREEN }
  else if pos < Config.FIXED_GREEN_TIME * 2 + Config.FIXED_YELLOW_TIME * 2 +
      Config.FIXED_ALL_RED_TIME then
    { s with main_signal := .RED, side_signal := .YELLOW }
  else
    { s with main_signal := .ALL_RED, side_signal := .ALL_RED }

/-- `SignalController.get_queue_length(cars, road)`: currently stopped cars of
the road's directions within `1.5 * LANE_WIDTH` of the intersection centre. -/
def SignalController.get_queue_length (cars : List Car) (road : Road) : ℕ :=
  let cx : ℚ := Config.WINDOW_WIDTH / 2
  let cy : ℚ := Config.WINDOW_HEIGHT / 2
  (cars.filter fun car =>
    match road with
    | .main =>
        decide (car.direction = .NORTH ∨ car.direction = .SOUTH) &&
          (car.is_stopped && decide (|car.x - cx| < Config.LANE_WIDTH * (3/2)))
    | .side =>
        decide (car.direction = .EAST ∨ car.direction = .WEST) &&
          (car.is_stopped && decide (|car.y - cy| < Config.LANE_WIDTH * (3/2)))).length

/-- `SignalController.get_arrival_rate(road, sim_time)`: arrivals within the
last 10 simulated seconds divided by 10, but 0 whenever the history holds
fewer than two entries. -/
def SignalController.get_arrival_rate (s : SignalController) (road : Road)
    (sim_time : ℚ) : ℚ :=
  let hist := s.history road
  if hist.length < 2 then 0
  else ((hist.filter fun t => decide (sim_time - t < 10)).length : ℚ) / 10

/-- `SignalController.get_average_wait_time(cars, road)`: average
`waiting_time` of the road's cars within `2 * LANE_WIDTH` of the centre
(0 when none qualify). -/
def SignalController.get_average_wait_time (cars : List Car) (road : Road) : ℚ :=
  let cx : ℚ := Config.WINDOW_WIDTH / 2
  let cy : ℚ := Config.WINDOW_HEIGHT / 2
  let waits := (cars.filter fun car =>
    match road with
    | .main =>
        decide (car.direction = .NORTH ∨ car.direction = .SOUTH) &&
          decide (|car.x - cx| < Config.LANE_WIDTH * 2)
    | .side =>
        decide (car.direction = .EAST ∨ car.direction = .WEST) &&
          decide (|car.y - cy| < Config.LANE_WIDTH * 2)).map Car.waiting_time
  if waits.length = 0 then 0 else waits.sum / waits.length

/-- `SignalController.calculate_pressure(cars, road, sim_time)`. -/
def SignalController.calculate_pressure (s : SignalController) (cars : List Car)
    (road : Road) (sim_time : ℚ) : ℚ :=
  let q : ℚ := SignalController.get_queue_length cars road
  let arr_rate := s.get_arrival_rate road sim_time
  let avg_wait := SignalController.get_average_wait_time cars road
  let avg_wait_norm := min (avg_wait / 60) 1
  q + Config.PRESSURE_ALPHA * arr_rate * 10 + Config.PRESSURE_BETA * avg_wait_norm * 10

/-- `SignalController.initiate_signal_switch(sim_time)`: mark switching,
stamp the road that currently holds GREEN, reset the green-time accumulator. -/
def SignalController.initiate_signal_switch (s : SignalController)
    (sim_time : ℚ) : SignalController :=
  { s with switching := true
           switch_stage := 0
           switch_start_time := sim_time
           last_switch_time := sim_time
           main_last_green :=
             if s.main_signal = .GREEN then sim_time else s.main_last_green
           side_last_green :=
             if s.main_signal ≠ .GREEN ∧ s.side_signal = .GREEN then sim_time
             else s.side_last_green
           current_green_time := 0 }

/-- The decision core of `SignalController.make_ai_decision`: the value of
`should_switch` as a function of the two pressures, the current green time
and the time since the last switch. -/
def shouldSwitchDecision (active_p waiting_p current_green_time
    time_since_switch : ℚ) : Bool :=
  (decide (current_green_time ≥ Config.MIN_GREEN_TIME ∧
    time_since_switch ≥ Config.COOLDOWN_TIME) &&
    decide (waiting_p > active_p + Config.HYSTERESIS_MARGIN)) ||
  decide (current_green_time ≥ Config.MAX_GREEN_TIME)

/-- `SignalController.make_ai_decision(cars, sim_time)`. -/
def SignalController.make_ai_decision (s : SignalController) (cars : List Car)
    (sim_time : ℚ) : SignalController :=
  let main_p := s.calculate_pressure cars .main sim_time
  let side_p := s.calculate_pressure cars .side sim_time
  let active_is_main := s.main_signal = .GREEN
  let active_p := if active_is_main then main_p else side_p
  let waiting_p := if active_is_main then side_p else main_p
  let time_since_switch := sim_time - s.last_switch_time
  if shouldSwitchDecision active_p waiting_p s.current_green_time time_since_switch then
    s.initiate_signal_switch sim_time
  else s

/-- `SignalController.handle_signal_switching(sim_time)`: one step of the
Yellow → AllRed → GrantingNewGreen sub-state machine. -/
def SignalController.handle_signal_switching (s : SignalController)
    (sim_time : ℚ) : SignalController :=
  let elapsed := sim_time - s.switch_start_time
  if s.switch_stage = 0 then
    let s1 :=
      if s.main_signal = .GREEN then { s with main_signal := .YELLOW }
      else if s.side_signal = .GREEN then { s with side_signal := .YELLOW }
      else s
    if elapsed ≥ Config.FIXED_YELLOW_TIME then
      { s1 with switch_stage := 1, switch_start_time := sim_time }
    else s1
  else if s.switch_stage = 1 then
    let s1 := { s with main_signal := .ALL_RED, side_signal := .ALL_RED }
    if elapsed ≥ Config.FIXED_ALL_RED_TIME then
      { s1 with switch_stage := 2, switch_start_time := sim_time }
    else s1
  else if s.switch_stage = 2 then
    let s1 :=
      if s.side_last_green < s.main_last_green then
        { s with side_signal := .GREEN, main_signal := .RED }
      else
        { s with main_signal := .GREEN, side_signal := .RED }
    { s1 with switching := false, current_green_time := 0 }
  else s

/-- The road currently treated as active by `update_ai_signals`
(`'main' if self.main_signal == GREEN else 'side'`). -/
def SignalController.activeRoad (s : SignalController) : Road :=
  if s.main_signal = .GREEN then .main else .side

/-- The road treated as waiting by `update_ai_signals`. -/
def SignalController.waitingRoad (s : SignalController) : Road :=
  (s.activeRoad).other

/-- `SignalController.update_ai_signals(cars, sim_time)`: advance the switch
sub-machine if one is in progress; otherwise run the polling-gated decision
loop and then the anti-starvation override. -/
def SignalController.update_ai_signals (s : SignalController) (cars : List Car)
    (sim_time : ℚ) : SignalController :=
  if s.switching then s.handle_signal_switching sim_time
  else
    let s1 :=
      if sim_time - s.last_ai_update ≥ Config.AI_UPDATE_INTERVAL then
        { s.make_ai_decision cars sim_time with last_ai_update := sim_time }
      else s
    let waiting_last := s1.lastGreen s1.waitingRoad
    let waiting_time := sim_time - waiting_last
    if waiting_time > Config.ANTI_STARVATION_TIME ∧
        s1.current_green_time > Config.MIN_GREEN_TIME then
      s1.initiate_signal_switch sim_time
    else s1

/-- `SignalController.update(cars, dt_sim, sim_time)`: bump the sim-time
clocks, then dispatch on the controller mode. -/
def SignalController.update (s : SignalController) (cars : List Car)
    (dt_sim sim_time : ℚ) : SignalController :=
  let s0 := { s with signal_timer := s.signal_timer + dt_sim
                     current_green_time := s.current_green_time + dt_sim }
  match s0.controller_type with
  | .fixed => s0.update_fixed_signals
  | .ai => s0.update_ai_signals cars sim_time

/-- The state of `MetricsCollector` (`throughput_history` is a
`deque(maxlen=400)`). -/
structure MetricsCollector where
  total_cars_spawned : ℕ
  total_cars_exited : ℕ
  total_wait_time : ℚ
  sim_start_time : ℚ
  throughput_history : List ℚ
  deriving DecidableEq, Repr

/-- `MetricsCollector.reset(start_sim_time)` (also the constructor). -/
def MetricsCollector.reset (start_sim_time : ℚ) : MetricsCollector :=
  { total_cars_spawned := 0, total_cars_exited := 0, total_wait_time := 0
    sim_start_time := start_sim_time, throughput_history := [] }

/-- `MetricsCollector.record_car_spawn()`. -/
def MetricsCollector.record_car_spawn (m : MetricsCollector) : MetricsCollector :=
  { m with total_cars_spawned := m.total_cars_spawned + 1 }

/-- `MetricsCollector.record_car_exit(car, sim_time)`: returns the new
collector and the car with its exit time stamped. -/
def MetricsCollector.record_car_exit (m : MetricsCollector) (car : Car)
    (sim_time : ℚ) : MetricsCollector × Car :=
  let push : List ℚ → List ℚ := fun h =>
    if h.length < 400 then h ++ [sim_time] else h.tail ++ [sim_time]
  ({ m with total_cars_exited := m.total_cars_exited + 1
            total_wait_time := m.total_wait_time + car.waiting_time
            throughput_history := push m.throughput_history },
   { car with exit_time := some sim_time })

/-- `MetricsCollector.get_average_wait_time()`. -/
def MetricsCollector.get_average_wait_time (m : MetricsCollector) : ℚ :=
  if m.total_cars_exited = 0 then 0
  else m.total_wait_time / m.total_cars_exited

/-- `MetricsCollector.get_throughput_per_minute(sim_time)`. -/
def MetricsCollector.get_throughput_per_minute (m : MetricsCollector)
    (sim_time : ℚ) : ℕ :=
  (m.throughput_history.filter fun t => decide (sim_time - t < 60)).length

/-- The controller together with the driving simulation clock, as maintained
by `TrafficSimulation.run`: each frame does `sim_time += dt_sim` and then
`signal_controller.update(cars, dt_sim, sim_time)`. -/
structure SimState where
  ctrl : SignalController
  sim_time : ℚ
  deriving DecidableEq, Repr

/-- One frame of the main loop, restricted to the controller: advance the
clock by `dt_sim` and run `SignalController.update` with the current car
set. -/
def simStep (s : SimState) (cars : List Car) (dt_sim : ℚ) : SimState :=
  let t := s.sim_time + dt_sim
  { ctrl := s.ctrl.update cars dt_sim t, sim_time := t }

/-- The controller states reachable by the main loop: a fresh controller
(either mode, any start time, as built by `start_simulation`), advanced by
frames with nonnegative `dt_sim` and by arrival recordings from
`spawn_cars`. -/
inductive Reach : SimState → Prop where
  | init (controller_type : ControllerType) (start : ℚ) :
      Reach ⟨SignalController.init controller_type start, start⟩
  | step (s : SimState) (cars : List Car) (dt_sim : ℚ) (hdt : 0 ≤ dt_sim) :
      Reach s → Reach (simStep s cars dt_sim)
  | arrive (s : SimState) (road : Road) :
      Reach s → Reach ⟨s.ctrl.record_arrival road s.sim_time, s.sim_time⟩

/-- Iterate `simStep` along a stream of car sets and time steps. -/
def iterSteps (carsf : ℕ → List Car) (dtf : ℕ → ℚ) (s : SimState) : ℕ → SimState
  | 0 => s
  | n + 1 => simStep (iterSteps carsf dtf s n) (carsf n) (dtf n)

/-- The simulation clock of `TrafficSimulation.run`:
`sim_time += dt_real * simulation_speed` once per frame. -/
def simClockRun (t dt_real mult : ℚ) : ℕ → ℚ
  | 0 => t
  | n + 1 => simClockRun t dt_real mult n + dt_real * mult

/-- Modelled from the spec: the pressure formula exactly as the claim words
it — `queue_length + α·(arrivals_in_last_10s / 10)·10 + β·min(avg_wait/60,1)·10`
with the arrival rate defined as the count of history entries newer than 10
simulated seconds divided by 10, for **any** contents of the history. -/
def claimPressure (s : SignalController) (cars : List Car) (road : Road)
    (sim_time : ℚ) : ℚ :=
  let arrivals_in_last_10s : ℚ :=
    ((s.history road).filter fun t => decide (t > sim_time - 10)).length
  let avg_wait := SignalController.get_average_wait_time cars road
  (SignalController.get_queue_length cars road : ℚ) +
    Config.PRESSURE_ALPHA * (arrivals_in_last_10s / 10) * 10 +
    Config.PRESSURE_BETA * min (avg_wait / 60) 1 * 10

/-- Modelled from the spec, amended: the same formula, except that the
arrival rate is 0 whenever the history holds fewer than two entries. -/
def claimPressureAmended (s : SignalController) (cars : List Car) (road : Road)
    (sim_time : ℚ) : ℚ :=
  let arrivals_in_last_10s : ℚ :=
    ((s.history road).filter fun t => decide (t > sim_time - 10)).length
  let rate : ℚ :=
    if (s.history road).length < 2 then 0 else arrivals_in_last_10s / 10
  let avg_wait := SignalController.get_average_wait_time cars road
  (SignalController.get_queue_length cars road : ℚ) +
    Config.PRESSURE_ALPHA * rate * 10 +
    Config.PRESSURE_BETA * min (avg_wait / 60) 1 * 10

/-! ## Basic preservation lemmas -/

lemma simStep_sim_time (s : SimState) (cars : List Car) (dt : ℚ) :
    (simStep s cars dt).sim_time = s.sim_time + dt := rfl

lemma update_fixed_controller_type (s : SignalController) :
    s.update_fixed_signals.controller_type = s.controller_type := by
  simp only [SignalController.update_fixed_signals]
  split_ifs <;> rfl

lemma initiate_controller_type (s : SignalController) (t : ℚ) :
    (s.initiate_signal_switch t).controller_type = s.controller_type := rfl

lemma initiate_signals (s : SignalController) (t : ℚ) :
    (s.initiate_signal_switch t).main_signal = s.main_signal ∧
    (s.initiate_signal_switch t).side_signal = s.side_signal := ⟨rfl, rfl⟩

lemma make_ai_controller_type (s : SignalController) (cars : List Car) (t : ℚ) :
    (s.make_ai_decision cars t).controller_type = s.controller_type := by
  simp only [SignalController.make_ai_decision]
  split_ifs <;> rfl

lemma handle_controller_type (s : SignalController) (t : ℚ) :
    (s.handle_signal_switching t).controller_type = s.controller_type := by
  simp only [SignalController.handle_signal_switching]
  split_ifs <;> rfl

lemma update_ai_controller_type (s : SignalController) (cars : List Car) (t : ℚ) :
    (s.update_ai_signals cars t).controller_type = s.controller_type := by
  simp only [SignalController.update_ai_signals]
  split_ifs <;>
    simp [handle_controller_type, initiate_controller_type, make_ai_controller_type]

lemma update_controller_type (s : SignalController) (cars : List Car) (dt t : ℚ) :
    (s.update cars dt t).controller_type = s.controller_type := by
  simp only [SignalController.update]
  split
  · exact update_fixed_controller_type _
  · exact update_ai_controller_type _ _ _

lemma handle_stamps (s : SignalController) (t : ℚ) :
    (s.handle_signal_switching t).main_last_green = s.main_last_green ∧
    (s.handle_signal_switching t).side_last_green = s.side_last_green := by
  simp only [SignalController.handle_signal_switching]
  split_ifs <;> simp

/-- While a switch is in progress, `SignalController.update` in Adaptive mode
runs only the switching sub-machine, which never touches the last-green
stamps. -/
lemma update_switching_stamps (s : SignalController) (cars : List Car) (dt t : ℚ)
    (hty : s.controller_type = .ai) (hsw : s.switching = true) :
    (s.update cars dt t).main_last_green = s.main_last_green ∧
    (s.update cars dt t).side_last_green = s.side_last_green := by
  simp only [SignalController.update, hty]
  simp only [SignalController.update_ai_signals, hsw, if_true]
  exact handle_stamps _ _

/-- Stage-0 stall: before the yellow duration elapses the sub-machine stays at
stage 0 with the same phase-start time. -/
lemma update_stage0_stall (s : SignalController) (cars : List Car) (dt t : ℚ)
    (hty : s.controller_type = .ai) (hsw : s.switching = true)
    (hst : s.switch_stage = 0)
    (ht : ¬ t - s.switch_start_time ≥ Config.FIXED_YELLOW_TIME) :
    (s.update cars dt t).switching = true ∧
    (s.update cars dt t).switch_stage = 0 ∧
    (s.update cars dt t).switch_start_time = s.switch_start_time := by
  simp only [SignalController.update, hty]
  simp only [SignalController.update_ai_signals, hsw, if_true]
  simp only [SignalController.handle_signal_switching, hst, if_true]
  split_ifs with h1 h2 <;> simp_all

/-- Stage-0 advance: once the yellow duration has elapsed the sub-machine
moves to stage 1, restarting the phase clock. -/
lemma update_stage0_adv (s : SignalController) (cars : List Car) (dt t : ℚ)
    (hty : s.controller_type = .ai) (hsw : s.switching = true)
    (hst : s.switch_stage = 0)
    (ht : t - s.switch_start_time ≥ Config.FIXED_YELLOW_TIME) :
    (s.update cars dt t).switching = true ∧
    (s.update cars dt t).switch_stage = 1 ∧
    (s.update cars dt t).switch_start_time = t := by
  simp only [SignalController.update, hty]
  simp only [SignalController.update_ai_signals, hsw, if_true]
  simp only [SignalController.handle_signal_switching, hst, if_true]
  split_ifs with h1 h2 <;> simp_all

/-- Stage-1 stall: before the all-red duration elapses the sub-machine stays
at stage 1 with the same phase-start time. -/
lemma update_stage1_stall (s : SignalController) (cars : List Car) (dt t : ℚ)
    (hty : s.controller_type = .ai) (hsw : s.switching = true)
    (hst : s.switch_stage = 1)
    (ht : ¬ t - s.switch_start_time ≥ Config.FIXED_ALL_RED_TIME) :
    (s.update cars dt t).switching = true ∧
    (s.update cars dt t).switch_stage = 1 ∧
    (s.update cars dt t).switch_start_time = s.switch_start_time := by
  simp only [SignalController.update, hty]
  simp only [SignalController.update_ai_signals, hsw, if_true]
  simp only [SignalController.handle_signal_switching, hst]
  norm_num
  split_ifs with h1 <;> simp_all

/-- Stage-1 advance: once the all-red duration has elapsed the sub-machine
moves to stage 2, restarting the phase clock. -/
lemma update_stage1_adv (s : SignalController) (cars : List Car) (dt t : ℚ)
    (hty : s.controller_type = .ai) (hsw : s.switching = true)
    (hst : s.switch_stage = 1)
    (ht : t - s.switch_start_time ≥ Config.FIXED_ALL_RED_TIME) :
    (s.update cars dt t).switching = true ∧
    (s.update cars dt t).switch_stage = 2 ∧
    (s.update cars dt t).switch_start_time = t := by
  simp only [SignalController.update, hty]
  simp only [SignalController.update_ai_signals, hsw, if_true]
  simp only [SignalController.handle_signal_switching, hst]
  norm_num
  split_ifs with h1 <;> simp_all

/-- Stage 2 grants the new green immediately: the road with the strictly
older last-green stamp becomes GREEN, the other RED, and switching ends. -/
lemma update_stage2_grant (s : SignalController) (cars : List Car) (dt t : ℚ)
    (hty : s.controller_type = .ai) (hsw : s.switching = true)
    (hst : s.switch_stage = 2) :
    (s.update cars dt t).switching = false ∧
    (s.update cars dt t).current_green_time = 0 ∧
    (s.side_last_green < s.main_last_green →
      (s.update cars dt t).side_signal = .GREEN ∧
      (s.update cars dt t).main_signal = .RED) ∧
    (¬ s.side_last_green < s.main_last_green →
      (s.update cars dt t).main_signal = .GREEN ∧
      (s.update cars dt t).side_signal = .RED) := by
  simp only [SignalController.update, hty]
  simp only [SignalController.update_ai_signals, hsw, if_true]
  simp only [SignalController.handle_signal_switching, hst]
  norm_num
  split_ifs with h1 <;> simp_all

/-! ## Mutual exclusion of GREEN -/

/-- The forbidden configuration: both roads GREEN. -/
def bothGreen (c : SignalController) : Prop :=
  c.main_signal = .GREEN ∧ c.side_signal = .GREEN

lemma not_bothGreen_update_fixed (s : SignalController) :
    ¬ bothGreen s.update_fixed_signals := by
  simp only [SignalController.update_fixed_signals, bothGreen]
  split_ifs <;> simp

lemma not_bothGreen_handle (s : SignalController) (t : ℚ)
    (h : ¬ bothGreen s) : ¬ bothGreen (s.handle_signal_switching t) := by
  simp only [SignalController.handle_signal_switching, bothGreen] at *
  split_ifs <;> simp_all

lemma not_bothGreen_initiate (s : SignalController) (t : ℚ)
    (h : ¬ bothGreen s) : ¬ bothGreen (s.initiate_signal_switch t) := by
  simpa [bothGreen, SignalController.initiate_signal_switch] using h

lemma not_bothGreen_make_ai (s : SignalController) (cars : List Car) (t : ℚ)
    (h : ¬ bothGreen s) : ¬ bothGreen (s.make_ai_decision cars t) := by
  simp only [SignalController.make_ai_decision]
  split_ifs <;> first
    | exact not_bothGreen_initiate _ _ h
    | exact h

lemma not_bothGreen_update_ai (s : SignalController) (cars : List Car) (t : ℚ)
    (h : ¬ bothGreen s) : ¬ bothGreen (s.update_ai_signals cars t) := by
  simp only [SignalController.update_ai_signals]
  split_ifs with h1 h2 h3 h4
  · exact not_bothGreen_handle _ _ h
  all_goals first
    | exact not_bothGreen_initiate _ _
        (by simpa [bothGreen] using not_bothGreen_make_ai s cars t h)
    | exact not_bothGreen_initiate _ _ h
    | exact (by simpa [bothGreen] using not_bothGreen_make_ai s cars t h)
    | exact h

lemma not_bothGreen_update (s : SignalController) (cars : List Car) (dt t : ℚ)
    (h : ¬ bothGreen s) : ¬ bothGreen (s.update cars dt t) := by
  simp only [SignalController.update]
  split
  · exact not_bothGreen_update_fixed _
  · exact not_bothGreen_update_ai _ _ _ (by simpa [bothGreen] using h)

lemma not_bothGreen_record_arrival (s : SignalController) (road : Road) (t : ℚ)
    (h : ¬ bothGreen s) : ¬ bothGreen (s.record_arrival road t) := by
  cases road <;> simpa [bothGreen, SignalController.record_arrival] using h

/-- Every reachable controller state avoids simultaneous GREEN. -/
lemma reach_not_bothGreen (s : SimState) (h : Reach s) : ¬ bothGreen s.ctrl := by
  induction h with
  | init controller_type start => simp [bothGreen, SignalController.init]
  | step s cars dt hdt _ ih => exact not_bothGreen_update _ _ _ _ ih
  | arrive s road _ ih => exact not_bothGreen_record_arrival _ _ _ ih

/-- While a switch at a stage other than 2 is in progress, it stays in
progress after one more tick. -/
lemma update_switching_stays (s : SignalController) (cars : List Car) (dt t : ℚ)
    (hty : s.controller_type = .ai) (hsw : s.switching = true)
    (hst : s.switch_stage ≠ 2) :
    (s.update cars dt t).switching = true := by
  simp only [SignalController.update, hty]
  simp only [SignalController.update_ai_signals, hsw, if_true]
  simp only [SignalController.handle_signal_switching]
  split_ifs <;> simp_all

@[simp] lemma initiate_switching (s : SignalController) (t : ℚ) :
    (s.initiate_signal_switch t).switching = true := rfl

@[simp] lemma initiate_stage (s : SignalController) (t : ℚ) :
    (s.initiate_signal_switch t).switch_stage = 0 := rfl

@[simp] lemma initiate_start (s : SignalController) (t : ℚ) :
    (s.initiate_signal_switch t).switch_start_time = t := rfl

@[simp] lemma initiate_cgt (s : SignalController) (t : ℚ) :
    (s.initiate_signal_switch t).current_green_time = 0 := rfl

@[simp] lemma initiate_last_switch (s : SignalController) (t : ℚ) :
    (s.initiate_signal_switch t).last_switch_time = t := rfl

@[simp] lemma initiate_main_signal (s : SignalController) (t : ℚ) :
    (s.initiate_signal_switch t).main_signal = s.main_signal := rfl

@[simp] lemma initiate_side_signal (s : SignalController) (t : ℚ) :
    (s.initiate_signal_switch t).side_signal = s.side_signal := rfl

lemma initiate_mlg (s : SignalController) (t : ℚ) :
    (s.initiate_signal_switch t).main_last_green =
      if s.main_signal = .GREEN then t else s.main_last_green := rfl

lemma initiate_slg (s : SignalController) (t : ℚ) :
    (s.initiate_signal_switch t).side_last_green =
      if s.main_signal ≠ .GREEN ∧ s.side_signal = .GREEN then t
      else s.side_last_green := rfl

/-- A positive switch decision needs the minimum green time (either through
the hysteresis clause or through the `MAX_GREEN_TIME` ceiling). -/
lemma shouldSwitch_min (a w c ts : ℚ) (h : shouldSwitchDecision a w c ts = true) :
    Config.MIN_GREEN_TIME ≤ c := by
  simp only [shouldSwitchDecision, Bool.or_eq_true, Bool.and_eq_true,
    decide_eq_true_eq] at h
  simp only [Config.MIN_GREEN_TIME, Config.COOLDOWN_TIME,
    Config.MAX_GREEN_TIME] at *
  rcases h with ⟨⟨hmin, -⟩, -⟩ | hmax
  · exact hmin
  · linarith

/-- `make_ai_decision` either leaves the controller unchanged or initiates a
switch; in the latter case the green phase had lasted at least
`MIN_GREEN_TIME`. -/
lemma make_ai_cases (s : SignalController) (cars : List Car) (t : ℚ) :
    s.make_ai_decision cars t = s ∨
      (s.make_ai_decision cars t = s.initiate_signal_switch t ∧
        Config.MIN_GREEN_TIME ≤ s.current_green_time) := by
  simp only [SignalController.make_ai_decision]
  split_ifs with h1 h2 h2
  · exact Or.inr ⟨rfl, shouldSwitch_min _ _ _ _ h2⟩
  · exact Or.inl rfl
  · exact Or.inr ⟨rfl, shouldSwitch_min _ _ _ _ h2⟩
  · exact Or.inl rfl

/-- Outside a switch, one adaptive tick is either a no-op on the control
state (up to `last_ai_update`), or initiates a switch from such a state;
anti-starvation initiations carry their guard. -/
lemma update_ai_nonswitching_cases (s : SignalController) (cars : List Car)
    (t : ℚ) (hsw : s.switching = false) :
    ∃ s1 : SignalController,
      (s1 = s ∨ s1 = { s with last_ai_update := t } ∨
        (s1 = { s.initiate_signal_switch t with last_ai_update := t } ∧
          Config.MIN_GREEN_TIME ≤ s.current_green_time)) ∧
      ((s.update_ai_signals cars t = s1 ∧
          ¬(t - s1.lastGreen s1.waitingRoad > Config.ANTI_STARVATION_TIME ∧
            s1.current_green_time > Config.MIN_GREEN_TIME)) ∨
        (s.update_ai_signals cars t = s1.initiate_signal_switch t ∧
          t - s1.lastGreen s1.waitingRoad > Config.ANTI_STARVATION_TIME ∧
          s1.current_green_time > Config.MIN_GREEN_TIME)) := by
  simp only [SignalController.update_ai_signals]
  rw [if_neg (by simp [hsw])]
  split_ifs with hgate hA hA
  · -- decision gate fired, anti-starvation condition also holds
    rcases make_ai_cases s cars t with hm | ⟨hm, hmin⟩ <;> rw [hm] at hA ⊢
    · exact ⟨_, Or.inr (Or.inl rfl), Or.inr ⟨rfl, hA⟩⟩
    · exact ⟨_, Or.inr (Or.inr ⟨rfl, hmin⟩), Or.inr ⟨rfl, hA⟩⟩
  · -- decision gate fired, no anti-starvation initiation
    rcases make_ai_cases s cars t with hm | ⟨hm, hmin⟩ <;> rw [hm] at hA ⊢
    · exact ⟨_, Or.inr (Or.inl rfl), Or.inl ⟨rfl, hA⟩⟩
    · exact ⟨_, Or.inr (Or.inr ⟨rfl, hmin⟩), Or.inl ⟨rfl, hA⟩⟩
  · -- gate closed, anti-starvation fires
    exact ⟨s, Or.inl rfl, Or.inr ⟨rfl, hA⟩⟩
  · -- nothing happens
    exact ⟨s, Or.inl rfl, Or.inl ⟨rfl, hA⟩⟩

/-! ## The adaptive-mode reachability invariant -/

/-- Exactly one road holds GREEN. -/
def exactlyOneGreen (c : SignalController) : Prop :=
  (c.main_signal = .GREEN ∧ c.side_signal ≠ .GREEN) ∨
  (c.side_signal = .GREEN ∧ c.main_signal ≠ .GREEN)

/-- Invariant of reachable states: the last-green stamps never lie in the
future, and in Adaptive mode outside a switch exactly one road is GREEN and
the waiting road has been stampless for at least the running green time. -/
def AIInv (s : SimState) : Prop :=
  s.ctrl.main_last_green ≤ s.sim_time ∧
  s.ctrl.side_last_green ≤ s.sim_time ∧
  (s.ctrl.controller_type = .ai → s.ctrl.switching = false →
    exactlyOneGreen s.ctrl ∧
    (s.ctrl.main_signal = .GREEN →
      s.ctrl.side_last_green + s.ctrl.current_green_time ≤ s.sim_time) ∧
    (s.ctrl.main_signal ≠ .GREEN →
      s.ctrl.main_last_green + s.ctrl.current_green_time ≤ s.sim_time))

lemma AIInv_init (controller_type : ControllerType) (start : ℚ) :
    AIInv ⟨SignalController.init controller_type start, start⟩ := by
  refine ⟨le_refl _, le_refl _, fun _ _ => ⟨?_, ?_, ?_⟩⟩ <;>
    simp [exactlyOneGreen, SignalController.init]

lemma AIInv_arrive (s : SimState) (road : Road) (h : AIInv s) :
    AIInv ⟨s.ctrl.record_arrival road s.sim_time, s.sim_time⟩ := by
  cases road <;>
    simpa [AIInv, exactlyOneGreen, SignalController.record_arrival] using h

/-- The bumped controller at the start of `SignalController.update`. -/
def bump (s : SignalController) (dt : ℚ) : SignalController :=
  { s with signal_timer := s.signal_timer + dt
           current_green_time := s.current_green_time + dt }

lemma update_eq_bump (s : SignalController) (cars : List Car) (dt t : ℚ) :
    s.update cars dt t =
      match (bump s dt).controller_type with
      | .fixed => (bump s dt).update_fixed_signals
      | .ai => (bump s dt).update_ai_signals cars t := rfl

lemma update_fixed_mlg (s : SignalController) :
    s.update_fixed_signals.main_last_green = s.main_last_green := by
  simp only [SignalController.update_fixed_signals]
  split_ifs <;> rfl

lemma update_fixed_slg (s : SignalController) :
    s.update_fixed_signals.side_last_green = s.side_last_green := by
  simp only [SignalController.update_fixed_signals]
  split_ifs <;> rfl

lemma update_fixed_switching (s : SignalController) :
    s.update_fixed_signals.switching = s.switching := by
  simp only [SignalController.update_fixed_signals]
  split_ifs <;> rfl

lemma AIInv_simStep (s : SimState) (cars : List Car) (dt : ℚ) (hdt : 0 ≤ dt)
    (h : AIInv s) : AIInv (simStep s cars dt) := by
  obtain ⟨h1, h2, h3⟩ := h
  have htime : (simStep s cars dt).sim_time = s.sim_time + dt := rfl
  have hctrl : (simStep s cars dt).ctrl = s.ctrl.update cars dt (s.sim_time + dt) := rfl
  cases hty : s.ctrl.controller_type with
  | fixed =>
      have hb : (bump s.ctrl dt).controller_type = .fixed := hty
      have he : s.ctrl.update cars dt (s.sim_time + dt) =
          (bump s.ctrl dt).update_fixed_signals := by
        rw [update_eq_bump, hb]
      refine ⟨?_, ?_, fun hai _ => ?_⟩
      · rw [htime, hctrl, he, update_fixed_mlg]
        show s.ctrl.main_last_green ≤ s.sim_time + dt
        linarith
      · rw [htime, hctrl, he, update_fixed_slg]
        show s.ctrl.side_last_green ≤ s.sim_time + dt
        linarith
      · rw [hctrl, he, update_fixed_controller_type] at hai
        rw [hb] at hai
        exact absurd hai (by simp)
  | ai =>
      have hb : (bump s.ctrl dt).controller_type = .ai := hty
      have he : s.ctrl.update cars dt (s.sim_time + dt) =
          (bump s.ctrl dt).update_ai_signals cars (s.sim_time + dt) := by
        rw [update_eq_bump, hb]
      by_cases hsw : s.ctrl.switching = true
      · -- mid-switch: only the sub-machine runs; stamps are frozen
        have hstamps := update_switching_stamps s.ctrl cars dt (s.sim_time + dt) hty hsw
        refine ⟨?_, ?_, fun hai hfin => ?_⟩
        · rw [htime, hctrl, hstamps.1]; linarith
        · rw [htime, hctrl, hstamps.2]; linarith
        · by_cases hst : s.ctrl.switch_stage = 2
          · obtain ⟨-, hcgt, hlt, hge⟩ :=
              update_stage2_grant s.ctrl cars dt (s.sim_time + dt) hty hsw hst
            rw [hctrl] at *
            rw [htime]
            by_cases hcmp : s.ctrl.side_last_green < s.ctrl.main_last_green
            · obtain ⟨hg, hr⟩ := hlt hcmp
              refine ⟨Or.inr ⟨hg, by simp [hr]⟩, fun hmg => ?_, fun _ => ?_⟩
              · rw [hr] at hmg
                exact absurd hmg (by simp)
              · rw [hcgt, hstamps.1]; linarith
            · obtain ⟨hg, hr⟩ := hge hcmp
              refine ⟨Or.inl ⟨hg, by simp [hr]⟩, fun _ => ?_, fun hmg => ?_⟩
              · rw [hcgt, hstamps.2]; linarith
              · exact absurd hg hmg
          · have := update_switching_stays s.ctrl cars dt (s.sim_time + dt) hty hsw hst
            rw [hctrl] at hfin
            rw [this] at hfin
            exact absurd hfin (by simp)
      · -- no switch in progress
        have hsw' : s.ctrl.switching = false := by simpa using hsw
        have hsw'' : (bump s.ctrl dt).switching = false := hsw'
        obtain ⟨s1, hs1, hres⟩ :=
          update_ai_nonswitching_cases (bump s.ctrl dt) cars (s.sim_time + dt) hsw''
        obtain ⟨hone, hmge, hmne⟩ := h3 hty hsw'
        -- facts about the intermediate state s1
        have f_main : s1.main_signal = s.ctrl.main_signal := by
          rcases hs1 with rfl | rfl | ⟨rfl, -⟩ <;> rfl
        have f_side : s1.side_signal = s.ctrl.side_signal := by
          rcases hs1 with rfl | rfl | ⟨rfl, -⟩ <;> rfl
        have f_sw : s1.switching = false ∨ s1.switching = true := by
          rcases hs1 with rfl | rfl | ⟨rfl, -⟩ <;> simp [hsw']
        have f_mlg : s1.main_last_green = s.ctrl.main_last_green ∨
            s1.main_last_green = s.sim_time + dt := by
          rcases hs1 with rfl | rfl | ⟨rfl, -⟩
          · exact Or.inl rfl
          · exact Or.inl rfl
          · show ((bump s.ctrl dt).initiate_signal_switch
                (s.sim_time + dt)).main_last_green = _ ∨ _
            rw [initiate_mlg]
            split_ifs
            · exact Or.inr rfl
            · exact Or.inl rfl
        have f_slg : s1.side_last_green = s.ctrl.side_last_green ∨
            s1.side_last_green = s.sim_time + dt := by
          rcases hs1 with rfl | rfl | ⟨rfl, -⟩
          · exact Or.inl rfl
          · exact Or.inl rfl
          · show ((bump s.ctrl dt).initiate_signal_switch
                (s.sim_time + dt)).side_last_green = _ ∨ _
            rw [initiate_slg]
            split_ifs
            · exact Or.inr rfl
            · exact Or.inl rfl
        have f_mlg_le : s1.main_last_green ≤ s.sim_time + dt := by
          rcases f_mlg with hh | hh <;> (rw [hh]; try linarith)
        have f_slg_le : s1.side_last_green ≤ s.sim_time + dt := by
          rcases f_slg with hh | hh <;> (rw [hh]; try linarith)
        rcases hres with ⟨hupd, -⟩ | ⟨hupd, -, -⟩
        · -- result is s1 itself
          simp only [AIInv]
          rw [hctrl, he, hupd, htime]
          refine ⟨f_mlg_le, f_slg_le, fun _ hfin => ?_⟩
          -- s1 not switching: s1 is not the initiated variant
          rcases hs1 with rfl | rfl | ⟨rfl, -⟩
          · exact ⟨by simpa [exactlyOneGreen] using hone,
              fun hmg => by
                show s.ctrl.side_last_green + (s.ctrl.current_green_time + dt) ≤ _
                have := hmge hmg
                linarith,
              fun hmg => by
                show s.ctrl.main_last_green + (s.ctrl.current_green_time + dt) ≤ _
                have := hmne hmg
                linarith⟩
          · exact ⟨by simpa [exactlyOneGreen] using hone,
              fun hmg => by
                show s.ctrl.side_last_green + (s.ctrl.current_green_time + dt) ≤ _
                have := hmge hmg
                linarith,
              fun hmg => by
                show s.ctrl.main_last_green + (s.ctrl.current_green_time + dt) ≤ _
                have := hmne hmg
                linarith⟩
          · exact absurd hfin (by simp)
        · -- result is an initiation from s1: switching is on, nothing to show
          simp only [AIInv]
          rw [hctrl, he, hupd, htime]
          refine ⟨?_, ?_, fun _ hfin => absurd hfin (by simp)⟩
          · rw [initiate_mlg]
            split_ifs <;> [skip; exact f_mlg_le]
            exact le_refl _
          · rw [initiate_slg]
            split_ifs <;> [skip; exact f_slg_le]
            exact le_refl _

/-- Every reachable state satisfies the invariant. -/
lemma reach_AIInv (s : SimState) (h : Reach s) : AIInv s := by
  induction h with
  | init controller_type start => exact AIInv_init controller_type start
  | step s cars dt hdt _ ih => exact AIInv_simStep s cars dt hdt ih
  | arrive s road _ ih => exact AIInv_arrive s road ih

/-! ## Claim C1 -/

/-- C1: for every reachable state of the SignalController, in both Fixed and
Adaptive mode and after every update tick, the main road's signal and the
side road's signal are never both GREEN at the same time. -/
theorem C1_no_simultaneous_green (s : SimState) (h : Reach s) :
    ¬(s.ctrl.main_signal = .GREEN ∧ s.ctrl.side_signal = .GREEN) :=
  reach_not_bothGreen s h

/-- Witness for C1 at a state reached by three concrete adaptive ticks. -/
theorem C1_no_simultaneous_green_witness :
    ¬((simStep (simStep (simStep ⟨SignalController.init .ai 0, 0⟩ [] 130)
        [] 115) [] 2).ctrl.main_signal = .GREEN ∧
      (simStep (simStep (simStep ⟨SignalController.init .ai 0, 0⟩ [] 130)
        [] 115) [] 2).ctrl.side_signal = .GREEN) :=
  C1_no_simultaneous_green _
    (Reach.step _ [] 2 (by norm_num)
      (Reach.step _ [] 115 (by norm_num)
        (Reach.step _ [] 130 (by norm_num)
          (Reach.init .ai 0))))

/-! ## Claim C9 -/

/-- C9: an emergency-flagged agent never decelerates because of a signal: its
update is independent of the signal controller altogether, it accelerates
whenever no agent blocks it ahead, and it decelerates exactly when one
does. -/
theorem C9_emergency_preemption (c : Car) (cars : List Car) (dt : ℚ)
    (hamb : c.is_ambulance = true) :
    (∀ ctrl ctrl' : SignalController,
      c.update cars ctrl dt = c.update cars ctrl' dt) ∧
    (∀ ctrl : SignalController, c.get_car_ahead cars = none →
      (c.update cars ctrl dt).speed =
        min c.max_speed (c.speed + Config.CAR_ACCELERATION * (dt * Config.FPS))) ∧
    (∀ ctrl : SignalController, c.get_car_ahead cars ≠ none →
      (c.update cars ctrl dt).speed =
        max 0 (c.speed - Config.CAR_ACCELERATION * 2 * (dt * Config.FPS))) := by
  refine ⟨fun ctrl ctrl' => ?_, fun ctrl hnone => ?_, fun ctrl hsome => ?_⟩
  · simp only [Car.update, hamb, if_true, Bool.false_or]
  · simp only [Car.update, hamb, if_true, hnone, Option.isSome_none,
      Bool.false_or, Bool.false_eq_true, if_false]
  · have hs : (c.get_car_ahead cars).isSome = true :=
      Option.isSome_iff_ne_none.mpr hsome
    simp only [Car.update, hamb, if_true, hs, Bool.false_or, if_true]

/-- Witness for C9: a concrete ambulance inside the stop band of a RED
signal, with no car ahead. -/
theorem C9_emergency_preemption_witness :
    (∀ ctrl ctrl' : SignalController,
      (Car.spawn 500 400 .EAST true 0).update [] ctrl (1/60) =
        (Car.spawn 500 400 .EAST true 0).update [] ctrl' (1/60)) ∧
    (∀ ctrl : SignalController,
      (Car.spawn 500 400 .EAST true 0).get_car_ahead [] = none →
      ((Car.spawn 500 400 .EAST true 0).update [] ctrl (1/60)).speed =
        min (Car.spawn 500 400 .EAST true 0).max_speed
          ((Car.spawn 500 400 .EAST true 0).speed +
            Config.CAR_ACCELERATION * (1/60 * Config.FPS))) ∧
    (∀ ctrl : SignalController,
      (Car.spawn 500 400 .EAST true 0).get_car_ahead [] ≠ none →
      ((Car.spawn 500 400 .EAST true 0).update [] ctrl (1/60)).speed =
        max 0 ((Car.spawn 500 400 .EAST true 0).speed -
          Config.CAR_ACCELERATION * 2 * (1/60 * Config.FPS))) :=
  C9_emergency_preemption (Car.spawn 500 400 .EAST true 0) [] (1/60) rfl

/-! ## Claim C10 -/

/-- Fold a list of exits (car, exit time) into the collector, as repeated
`record_car_exit` calls. -/
def recordExits (m : MetricsCollector) (exits : List (Car × ℚ)) :
    MetricsCollector :=
  exits.foldl (fun acc e => (acc.record_car_exit e.1 e.2).1) m

lemma recordExits_stats (exits : List (Car × ℚ)) : ∀ m : MetricsCollector,
    (recordExits m exits).total_cars_exited =
      m.total_cars_exited + exits.length ∧
    (recordExits m exits).total_wait_time =
      m.total_wait_time + (exits.map fun e => e.1.waiting_time).sum := by
  induction exits with
  | nil => intro m; simp [recordExits]
  | cons e es ih =>
      intro m
      obtain ⟨h1, h2⟩ := ih ((m.record_car_exit e.1 e.2).1)
      refine ⟨?_, ?_⟩
      · rw [show recordExits m (e :: es) =
            recordExits ((m.record_car_exit e.1 e.2).1) es from rfl, h1]
        simp [MetricsCollector.record_car_exit]
        omega
      · rw [show recordExits m (e :: es) =
            recordExits ((m.record_car_exit e.1 e.2).1) es from rfl, h2]
        simp [MetricsCollector.record_car_exit]
        ring

/-- C10: after N recorded exits with waiting times w₁..w_N, the collector's
average wait equals (Σ wᵢ)/N exactly, and equals 0 when N = 0. -/
theorem C10_average_wait (start : ℚ) (exits : List (Car × ℚ)) :
    (recordExits (MetricsCollector.reset start) exits).get_average_wait_time =
      if exits.length = 0 then 0
      else (exits.map fun e => e.1.waiting_time).sum / exits.length := by
  obtain ⟨h1, h2⟩ := recordExits_stats exits (MetricsCollector.reset start)
  simp only [MetricsCollector.get_average_wait_time]
  rw [h1, h2]
  simp [MetricsCollector.reset]

/-! ## Counterexamples for C3, C5, C7, C8 -/

/-- Five stopped cars queued on the main road at the intersection centre,
with zero accumulated wait. -/
def mainQueueCars : List Car :=
  List.replicate 5 { Car.spawn 600 100 .NORTH false 0 with is_stopped := true }

/-- Five stopped cars queued on the side road, each having waited `w`. -/
def sideQueueCars (w : ℚ) : List Car :=
  List.replicate 5 { Car.spawn 100 400 .EAST false 0 with
    is_stopped := true, waiting_time := w }

/-- C3 counterexample: with the active (main) pressure exactly 5.0 and the
waiting (side) pressure exactly 5.3, the decision loop *does* trigger a
switch once the current green has reached `MAX_GREEN_TIME` (here 50 s), so
"no switch is triggered by the decision loop" fails as stated. -/
theorem C3_counterexample :
    ({ SignalController.init .ai 0 with
        current_green_time := 50 } : SignalController).calculate_pressure
      (mainQueueCars ++ sideQueueCars (9/2)) .main 0 = 5 ∧
    ({ SignalController.init .ai 0 with
        current_green_time := 50 } : SignalController).calculate_pressure
      (mainQueueCars ++ sideQueueCars (9/2)) .side 0 = 53/10 ∧
    ({ SignalController.init .ai 0 with
        current_green_time := 50 } : SignalController).main_signal = .GREEN ∧
    (({ SignalController.init .ai 0 with
        current_green_time := 50 } : SignalController).make_ai_decision
      (mainQueueCars ++ sideQueueCars (9/2)) 0).switching = true := by
  refine ⟨?_, ?_, rfl, ?_⟩ <;>
    norm_num [SignalController.make_ai_decision, shouldSwitchDecision,
      SignalController.initiate_signal_switch, Config.MIN_GREEN_TIME,
      Config.MAX_GREEN_TIME, Config.HYSTERESIS_MARGIN, SignalController.calculate_pressure,
    SignalController.get_queue_length, SignalController.get_arrival_rate,
    SignalController.get_average_wait_time, SignalController.history,
    SignalController.init, mainQueueCars, sideQueueCars, Car.spawn,
    List.replicate, List.filter, Config.LANE_WIDTH, Config.WINDOW_WIDTH,
    Config.WINDOW_HEIGHT, Config.CAR_MAX_SPEED, Config.PRESSURE_ALPHA,
    Config.PRESSURE_BETA, Config.COOLDOWN_TIME]

/-- C5 counterexample: with a single arrival 5 simulated seconds ago the code
reports pressure 0 (the `len < 2` guard zeroes the rate), while the claimed
formula yields 0.3. -/
theorem C5_counterexample :
    ({ SignalController.init .ai 0 with
        arrival_history_main := [0] } : SignalController).calculate_pressure
      [] .main 5 = 0 ∧
    claimPressure ({ SignalController.init .ai 0 with
        arrival_history_main := [0] } : SignalController) [] .main 5 = 3/10 ∧
    ({ SignalController.init .ai 0 with
        arrival_history_main := [0] } : SignalController).calculate_pressure
        [] .main 5 ≠
      claimPressure ({ SignalController.init .ai 0 with
        arrival_history_main := [0] } : SignalController) [] .main 5 := by
  refine ⟨?_, ?_, ?_⟩ <;>
    norm_num [claimPressure, SignalController.calculate_pressure,
    SignalController.get_queue_length, SignalController.get_arrival_rate,
    SignalController.get_average_wait_time, SignalController.history,
    SignalController.init, mainQueueCars, sideQueueCars, Car.spawn,
    List.replicate, List.filter, Config.LANE_WIDTH, Config.WINDOW_WIDTH,
    Config.WINDOW_HEIGHT, Config.CAR_MAX_SPEED, Config.PRESSURE_ALPHA,
    Config.PRESSURE_BETA, Config.COOLDOWN_TIME]

/-- C7 counterexample: an accelerating car integrated over two frames of
`dt_sim = 1/60` reaches x = 0.3, while one frame of `dt_sim = 2/60` (same
elapsed simulation time, multiplier doubled) reaches x = 0.4 — a
discretization difference of 0.1 px in exact arithmetic, not a
floating-point rounding artefact. -/
theorem C7_counterexample :
    ((((Car.spawn 0 400 .EAST false 0).update [] (SignalController.init .fixed 0)
        (1/60)).update [] (SignalController.init .fixed 0) (1/60))).x = 3/10 ∧
    ((Car.spawn 0 400 .EAST false 0).update [] (SignalController.init .fixed 0)
      (2/60)).x = 2/5 ∧
    ((((Car.spawn 0 400 .EAST false 0).update [] (SignalController.init .fixed 0)
        (1/60)).update [] (SignalController.init .fixed 0) (1/60))).x ≠
      ((Car.spawn 0 400 .EAST false 0).update [] (SignalController.init .fixed 0)
        (2/60)).x := by
  refine ⟨?_, ?_, ?_⟩ <;>
    norm_num [Car.update, Car.should_stop_at_signal, Car.get_car_ahead,
      Car.isAhead, SignalController.get_signal_state, SignalController.init,
      Car.spawn, List.filter, Config.WINDOW_WIDTH, Config.WINDOW_HEIGHT,
      Config.INTERSECTION_SIZE, Config.CAR_ACCELERATION, Config.CAR_MAX_SPEED,
      Config.FPS, Config.LANE_WIDTH, Config.SAFE_DISTANCE, Config.COOLDOWN_TIME]

/-- C8 counterexample: a car braking at a RED light ends the tick with speed
1/2000 (counted as stopped), moves 1/2000 px during the tick, and still
accrues `dt_sim` of waiting time — so waiting increases in a tick whose
position is *not* unchanged. -/
theorem C8_counterexample :
    (({ Car.spawn 500 400 .EAST false 0 with
        speed := 1/5 + 1/2000 } : Car).update
      [{ Car.spawn 500 400 .EAST false 0 with speed := 1/5 + 1/2000 }]
      (SignalController.init .fixed 0) (1/60)).waiting_time = 1/60 ∧
    (({ Car.spawn 500 400 .EAST false 0 with
        speed := 1/5 + 1/2000 } : Car).update
      [{ Car.spawn 500 400 .EAST false 0 with speed := 1/5 + 1/2000 }]
      (SignalController.init .fixed 0) (1/60)).x ≠ 500 ∧
    (({ Car.spawn 500 400 .EAST false 0 with
        speed := 1/5 + 1/2000 } : Car).update
      [{ Car.spawn 500 400 .EAST false 0 with speed := 1/5 + 1/2000 }]
      (SignalController.init .fixed 0) (1/60)).is_stopped = true := by
  refine ⟨?_, ?_, ?_⟩ <;>
    (norm_num [Car.update, Car.should_stop_at_signal, Car.get_car_ahead,
      Car.isAhead, SignalController.get_signal_state, SignalController.init,
      Car.spawn, List.filter, Config.WINDOW_WIDTH, Config.WINDOW_HEIGHT,
      Config.INTERSECTION_SIZE, Config.CAR_ACCELERATION, Config.CAR_MAX_SPEED,
      Config.FPS, Config.LANE_WIDTH, Config.SAFE_DISTANCE, Config.COOLDOWN_TIME]
     try simp
     try rw [abs_lt]
     all_goals norm_num)

/-! ## Claim C3 (amended) -/

/-- C3 (amended): with hysteresis margin 0.5, pressures 5.0 (active) versus
5.3 (waiting) never make the decision loop switch as long as the green is
below the maximum green duration; pressures 5.0 versus 5.6 do trigger a
switch once minimum green and cooldown are satisfied. -/
theorem C3_hysteresis :
    (∀ (s : SignalController) (cars : List Car) (t : ℚ),
      s.calculate_pressure cars s.activeRoad t = 5 →
      s.calculate_pressure cars s.activeRoad.other t = 53/10 →
      s.current_green_time < Config.MAX_GREEN_TIME →
      s.make_ai_decision cars t = s) ∧
    (∀ (s : SignalController) (cars : List Car) (t : ℚ),
      s.calculate_pressure cars s.activeRoad t = 5 →
      s.calculate_pressure cars s.activeRoad.other t = 28/5 →
      Config.MIN_GREEN_TIME ≤ s.current_green_time →
      Config.COOLDOWN_TIME ≤ t - s.last_switch_time →
      (s.make_ai_decision cars t).switching = true) := by
  have key : ∀ (s : SignalController) (cars : List Car) (t : ℚ),
      s.make_ai_decision cars t =
        if shouldSwitchDecision (s.calculate_pressure cars s.activeRoad t)
            (s.calculate_pressure cars s.activeRoad.other t)
            s.current_green_time (t - s.last_switch_time) = true then
          s.initiate_signal_switch t
        else s := by
    intro s cars t
    simp only [SignalController.make_ai_decision, SignalController.activeRoad]
    by_cases hm : s.main_signal = .GREEN <;>
      simp [hm, Road.other]
  constructor
  · intro s cars t hact hwait hlt
    rw [key, hact, hwait, if_neg]
    simp only [shouldSwitchDecision, Bool.or_eq_true, Bool.and_eq_true,
      decide_eq_true_eq, not_or, not_and]
    constructor
    · intro _
      norm_num [Config.HYSTERESIS_MARGIN]
    · simp only [Config.MAX_GREEN_TIME] at hlt ⊢
      linarith
  · intro s cars t hact hwait hmin hcool
    rw [key, hact, hwait, if_pos]
    · rfl
    · simp only [shouldSwitchDecision, Bool.or_eq_true, Bool.and_eq_true,
        decide_eq_true_eq]
      left
      refine ⟨⟨hmin, by linarith⟩, by norm_num [Config.HYSTERESIS_MARGIN]⟩

/-- The adaptive controller state used in the C3 witness scenario: fresh
start, 20 s into the current green. -/
def c3state : SignalController :=
  { SignalController.init .ai 0 with current_green_time := 20 }

/-- Witness for C3 (amended) at pressures 5.0/5.3 (no switch) and 5.0/5.6
(switch). -/
theorem C3_hysteresis_witness :
    c3state.calculate_pressure (mainQueueCars ++ sideQueueCars (9/2))
      c3state.activeRoad 0 = 5 ∧
    c3state.calculate_pressure (mainQueueCars ++ sideQueueCars (9/2))
      c3state.activeRoad.other 0 = 53/10 ∧
    c3state.make_ai_decision (mainQueueCars ++ sideQueueCars (9/2)) 0 =
      c3state ∧
    c3state.calculate_pressure (mainQueueCars ++ sideQueueCars 9)
      c3state.activeRoad.other 0 = 28/5 ∧
    (c3state.make_ai_decision (mainQueueCars ++ sideQueueCars 9) 0).switching
      = true := by
  have hroad : c3state.activeRoad = .main := rfl
  have h1 : c3state.calculate_pressure (mainQueueCars ++ sideQueueCars (9/2))
      .main 0 = 5 := by
    norm_num [SignalController.calculate_pressure,
      SignalController.get_queue_length, SignalController.get_arrival_rate,
      SignalController.get_average_wait_time, SignalController.history,
      SignalController.init, c3state, mainQueueCars, sideQueueCars, Car.spawn,
      List.replicate, List.filter, Config.LANE_WIDTH, Config.WINDOW_WIDTH,
      Config.WINDOW_HEIGHT, Config.CAR_MAX_SPEED, Config.PRESSURE_ALPHA,
      Config.PRESSURE_BETA, Config.COOLDOWN_TIME]
  have h2 : c3state.calculate_pressure (mainQueueCars ++ sideQueueCars (9/2))
      .side 0 = 53/10 := by
    norm_num [SignalController.calculate_pressure,
      SignalController.get_queue_length, SignalController.get_arrival_rate,
      SignalController.get_average_wait_time, SignalController.history,
      SignalController.init, c3state, mainQueueCars, sideQueueCars, Car.spawn,
      List.replicate, List.filter, Config.LANE_WIDTH, Config.WINDOW_WIDTH,
      Config.WINDOW_HEIGHT, Config.CAR_MAX_SPEED, Config.PRESSURE_ALPHA,
      Config.PRESSURE_BETA, Config.COOLDOWN_TIME]
  have h1b : c3state.calculate_pressure (mainQueueCars ++ sideQueueCars 9)
      .main 0 = 5 := by
    norm_num [SignalController.calculate_pressure,
      SignalController.get_queue_length, SignalController.get_arrival_rate,
      SignalController.get_average_wait_time, SignalController.history,
      SignalController.init, c3state, mainQueueCars, sideQueueCars, Car.spawn,
      List.replicate, List.filter, Config.LANE_WIDTH, Config.WINDOW_WIDTH,
      Config.WINDOW_HEIGHT, Config.CAR_MAX_SPEED, Config.PRESSURE_ALPHA,
      Config.PRESSURE_BETA, Config.COOLDOWN_TIME]
  have h2b : c3state.calculate_pressure (mainQueueCars ++ sideQueueCars 9)
      .side 0 = 28/5 := by
    norm_num [SignalController.calculate_pressure,
      SignalController.get_queue_length, SignalController.get_arrival_rate,
      SignalController.get_average_wait_time, SignalController.history,
      SignalController.init, c3state, mainQueueCars, sideQueueCars, Car.spawn,
      List.replicate, List.filter, Config.LANE_WIDTH, Config.WINDOW_WIDTH,
      Config.WINDOW_HEIGHT, Config.CAR_MAX_SPEED, Config.PRESSURE_ALPHA,
      Config.PRESSURE_BETA, Config.COOLDOWN_TIME]
  have hgl : c3state.current_green_time < Config.MAX_GREEN_TIME := by
    norm_num [c3state, SignalController.init, Config.MAX_GREEN_TIME]
  have hgm : Config.MIN_GREEN_TIME ≤ c3state.current_green_time := by
    norm_num [c3state, SignalController.init, Config.MIN_GREEN_TIME]
  have hcool : Config.COOLDOWN_TIME ≤ (0:ℚ) - c3state.last_switch_time := by
    norm_num [c3state, SignalController.init, Config.COOLDOWN_TIME]
  refine ⟨by rw [hroad]; exact h1, by rw [hroad]; exact h2, ?_, by
    rw [hroad]; exact h2b, ?_⟩
  · exact C3_hysteresis.1 c3state _ 0 (by rw [hroad]; exact h1)
      (by rw [hroad]; exact h2) hgl
  · exact C3_hysteresis.2 c3state _ 0 (by rw [hroad]; exact h1b)
      (by rw [hroad]; exact h2b) hgm hcool

/-! ## Claim C5 (amended) -/

/-- C5 (amended): for every road, car list, history contents and time, the
code's pressure equals the claimed formula with the arrival rate zeroed when
the history holds fewer than two entries. -/
theorem C5_pressure_formula (s : SignalController) (cars : List Car)
    (road : Road) (t : ℚ) :
    s.calculate_pressure cars road t = claimPressureAmended s cars road t := by
  have hfilter : (s.history road).filter (fun τ => decide (t - τ < 10)) =
      (s.history road).filter (fun τ => decide (τ > t - 10)) := by
    apply List.filter_congr
    intro τ _
    simp only [decide_eq_decide]
    constructor <;> intro <;> linarith
  simp only [SignalController.calculate_pressure, claimPressureAmended,
    SignalController.get_arrival_rate, hfilter]

/-! ## Claim C8 (amended) -/

/-- C8 (amended): waiting time never decreases; when it increases it does so
by exactly `dt_sim`, the agent ends the tick stopped, and both coordinates
moved by less than the 10⁻³ tolerance during the tick. -/
theorem C8_waiting_time (c : Car) (cars : List Car) (ctrl : SignalController)
    (dt : ℚ) (hdt : 0 ≤ dt) :
    c.waiting_time ≤ (c.update cars ctrl dt).waiting_time ∧
    ((c.update cars ctrl dt).waiting_time ≠ c.waiting_time →
      (c.update cars ctrl dt).waiting_time = c.waiting_time + dt ∧
      (c.update cars ctrl dt).is_stopped = true ∧
      |(c.update cars ctrl dt).x - c.x| < 1/1000 ∧
      |(c.update cars ctrl dt).y - c.y| < 1/1000) := by
  simp only [Car.update]
  split_ifs <;>
    first
      | exact ⟨le_refl _, fun hne => absurd rfl hne⟩
      | (rename_i hP
         first
           | exact hP.1.elim
           | exact ⟨by linarith, fun _ => ⟨rfl, hP.1, hP.2.1, hP.2.2⟩⟩)

/-- Witness for C8 (amended) at the braking car of the tolerance scenario. -/
theorem C8_waiting_time_witness :
    (0:ℚ) ≤ 1/60 ∧
    (({ Car.spawn 500 400 .EAST false 0 with
          speed := 1/5 + 1/2000 } : Car).waiting_time ≤
        (({ Car.spawn 500 400 .EAST false 0 with
          speed := 1/5 + 1/2000 } : Car).update []
          (SignalController.init .fixed 0) (1/60)).waiting_time ∧
      ((({ Car.spawn 500 400 .EAST false 0 with
          speed := 1/5 + 1/2000 } : Car).update []
          (SignalController.init .fixed 0) (1/60)).waiting_time ≠
          ({ Car.spawn 500 400 .EAST false 0 with
            speed := 1/5 + 1/2000 } : Car).waiting_time →
        (({ Car.spawn 500 400 .EAST false 0 with
          speed := 1/5 + 1/2000 } : Car).update []
          (SignalController.init .fixed 0) (1/60)).waiting_time =
          ({ Car.spawn 500 400 .EAST false 0 with
            speed := 1/5 + 1/2000 } : Car).waiting_time + 1/60 ∧
        (({ Car.spawn 500 400 .EAST false 0 with
          speed := 1/5 + 1/2000 } : Car).update []
          (SignalController.init .fixed 0) (1/60)).is_stopped = true ∧
        |(({ Car.spawn 500 400 .EAST false 0 with
          speed := 1/5 + 1/2000 } : Car).update []
          (SignalController.init .fixed 0) (1/60)).x -
          ({ Car.spawn 500 400 .EAST false 0 with
            speed := 1/5 + 1/2000 } : Car).x| < 1/1000 ∧
        |(({ Car.spawn 500 400 .EAST false 0 with
          speed := 1/5 + 1/2000 } : Car).update []
          (SignalController.init .fixed 0) (1/60)).y -
          ({ Car.spawn 500 400 .EAST false 0 with
            speed := 1/5 + 1/2000 } : Car).y| < 1/1000)) :=
  ⟨by norm_num,
   C8_waiting_time { Car.spawn 500 400 .EAST false 0 with
     speed := 1/5 + 1/2000 } [] (SignalController.init .fixed 0) (1/60)
     (by norm_num)⟩

/-! ## Claim C7 (amended) -/

/-- One free step of a car already cruising at its maximum speed with a green
path: it stays at maximum speed and advances `max_speed * dt * FPS` along its
axis. -/
lemma cruise_step (d : Car) (ctrl : SignalController) (e : ℚ) (he : 0 ≤ e)
    (hs : d.should_stop_at_signal ctrl = false) (hv : d.speed = d.max_speed) :
    d.update [] ctrl e = { d with
      speed := d.max_speed
      is_stopped := false
      x := d.x + (match d.direction with
        | .EAST => d.max_speed * (e * Config.FPS)
        | .WEST => -(d.max_speed * (e * Config.FPS))
        | _ => 0)
      y := d.y + (match d.direction with
        | .NORTH => -(d.max_speed * (e * Config.FPS))
        | .SOUTH => d.max_speed * (e * Config.FPS)
        | _ => 0) } := by
  have hmin : min d.max_speed (d.speed + Config.CAR_ACCELERATION * (e * Config.FPS)) =
      d.max_speed := by
    rw [hv]
    apply min_eq_left
    have : 0 ≤ Config.CAR_ACCELERATION * (e * Config.FPS) := by
      have : (0:ℚ) ≤ e * Config.FPS := by
        norm_num [Config.FPS]
        linarith
      norm_num [Config.CAR_ACCELERATION]
      linarith
    linarith
  cases hdir : d.direction <;>
    (simp only [Car.update, hs, Car.get_car_ahead, List.find?, hdir,
       Option.isSome_none, Bool.or_self, Bool.false_or, Bool.false_eq_true,
       if_false, hmin]
     norm_num
     all_goals ring)

/-- C7 (amended): (a) the simulation clock is linear in the multiplier — the
sim-time after 2k frames at multiplier 1 equals the sim-time after k frames
at multiplier 2; (b) a car already at maximum speed on a free green path
covers exactly the same distance in one double-length frame as in two
single-length frames. -/
theorem C7_speed_multiplier :
    (∀ (t dt_real : ℚ) (k : ℕ),
      simClockRun t dt_real 1 (2 * k) = simClockRun t dt_real 2 k) ∧
    (∀ (c : Car) (ctrl : SignalController) (dt : ℚ), 0 ≤ dt →
      c.speed = c.max_speed →
      c.should_stop_at_signal ctrl = false →
      (c.update [] ctrl dt).should_stop_at_signal ctrl = false →
      (c.update [] ctrl dt).update [] ctrl dt = c.update [] ctrl (2 * dt)) := by
  constructor
  · intro t d k
    induction k with
    | zero => rfl
    | succ k ih =>
        have h2 : 2 * (k + 1) = (2 * k + 1) + 1 := by ring
        rw [h2]
        show simClockRun t d 1 (2 * k) + d * 1 + d * 1 =
          simClockRun t d 2 k + d * 2
        rw [ih]
        ring
  · intro c ctrl dt hdt hv hs0 hs1
    rw [cruise_step c ctrl dt hdt hs0 hv] at hs1
    rw [cruise_step c ctrl dt hdt hs0 hv,
        cruise_step _ ctrl dt hdt hs1 rfl,
        cruise_step c ctrl (2 * dt) (by linarith) hs0 hv]
    cases hdir : c.direction <;>
      simp [hdir, Car.mk.injEq] <;> ring

/-- Witness for C7 (amended): three frames of the clock identity, and the
cruising identity for a concrete eastbound car at maximum speed far from the
stop line. -/
theorem C7_speed_multiplier_witness :
    (simClockRun 0 (1/60) 1 6 = simClockRun 0 (1/60) 2 3) ∧
    (({ Car.spawn 0 400 .EAST false 0 with speed := 4 } : Car).update []
        (SignalController.init .fixed 0) (1/60)).update []
        (SignalController.init .fixed 0) (1/60) =
      ({ Car.spawn 0 400 .EAST false 0 with speed := 4 } : Car).update []
        (SignalController.init .fixed 0) (2 * (1/60)) := by
  constructor
  · exact C7_speed_multiplier.1 0 (1/60) 3
  · apply C7_speed_multiplier.2 _ _ _ (by norm_num) rfl
    · norm_num [Car.should_stop_at_signal, SignalController.get_signal_state,
        SignalController.init, Car.spawn, Config.WINDOW_WIDTH,
        Config.WINDOW_HEIGHT, Config.INTERSECTION_SIZE, Config.COOLDOWN_TIME,
        Config.CAR_MAX_SPEED]
    · norm_num [Car.update, Car.should_stop_at_signal, Car.get_car_ahead,
        Car.isAhead, SignalController.get_signal_state, SignalController.init,
        Car.spawn, List.filter, Config.WINDOW_WIDTH, Config.WINDOW_HEIGHT,
        Config.INTERSECTION_SIZE, Config.CAR_ACCELERATION,
        Config.CAR_MAX_SPEED, Config.FPS, Config.COOLDOWN_TIME]

/-! ## Claim C6 -/

/-- C6: in Fixed mode the signal pair after an update is a pure function of
`signal_timer mod 50` (the cycle length for green=20, yellow=3, all-red=2),
and the four scenario points land on main-GREEN, main-YELLOW, both-ALL_RED
and side-GREEN respectively. -/
theorem C6_fixed_schedule :
    (∀ s s' : SignalController,
      fmod s.signal_timer 50 = fmod s'.signal_timer 50 →
      s.update_fixed_signals.main_signal = s'.update_fixed_signals.main_signal ∧
      s.update_fixed_signals.side_signal = s'.update_fixed_signals.side_signal) ∧
    (({ SignalController.init .fixed 0 with
        signal_timer := 199/10 } : SignalController).update_fixed_signals.main_signal
      = .GREEN ∧
     ({ SignalController.init .fixed 0 with
        signal_timer := 199/10 } : SignalController).update_fixed_signals.side_signal
      = .RED) ∧
    ({ SignalController.init .fixed 0 with
        signal_timer := 41/2 } : SignalController).update_fixed_signals.main_signal
      = .YELLOW ∧
    (({ SignalController.init .fixed 0 with
        signal_timer := 47/2 } : SignalController).update_fixed_signals.main_signal
      = .ALL_RED ∧
     ({ SignalController.init .fixed 0 with
        signal_timer := 47/2 } : SignalController).update_fixed_signals.side_signal
      = .ALL_RED) ∧
    (({ SignalController.init .fixed 0 with
        signal_timer := 26 } : SignalController).update_fixed_signals.side_signal
      = .GREEN ∧
     ({ SignalController.init .fixed 0 with
        signal_timer := 26 } : SignalController).update_fixed_signals.main_signal
      = .RED) := by
  have hcyc : Config.FIXED_GREEN_TIME * 2 + Config.FIXED_YELLOW_TIME * 2 +
      Config.FIXED_ALL_RED_TIME * 2 = (50:ℚ) := by
    norm_num [Config.FIXED_GREEN_TIME, Config.FIXED_YELLOW_TIME,
      Config.FIXED_ALL_RED_TIME]
  refine ⟨fun s s' h => ?_, ?_, ?_, ?_, ?_⟩
  · simp only [SignalController.update_fixed_signals, hcyc, h]
    split_ifs <;> exact ⟨rfl, rfl⟩
  all_goals
    norm_num [SignalController.update_fixed_signals, fmod,
      Config.FIXED_GREEN_TIME, Config.FIXED_YELLOW_TIME,
      Config.FIXED_ALL_RED_TIME]

/-- Witness for C6: the purity component applied at timers 60 and 10, whose
residues mod 50 agree. -/
theorem C6_fixed_schedule_witness :
    fmod ({ SignalController.init .fixed 0 with
        signal_timer := 60 } : SignalController).signal_timer 50 =
      fmod ({ SignalController.init .fixed 0 with
        signal_timer := 10 } : SignalController).signal_timer 50 ∧
    ({ SignalController.init .fixed 0 with
        signal_timer := 60 } : SignalController).update_fixed_signals.main_signal =
      ({ SignalController.init .fixed 0 with
        signal_timer := 10 } : SignalController).update_fixed_signals.main_signal ∧
    ({ SignalController.init .fixed 0 with
        signal_timer := 60 } : SignalController).update_fixed_signals.side_signal =
      ({ SignalController.init .fixed 0 with
        signal_timer := 10 } : SignalController).update_fixed_signals.side_signal := by
  have h : fmod ({ SignalController.init .fixed 0 with
      signal_timer := 60 } : SignalController).signal_timer 50 =
      fmod ({ SignalController.init .fixed 0 with
      signal_timer := 10 } : SignalController).signal_timer 50 := by
    norm_num [fmod]
  exact ⟨h, C6_fixed_schedule.1 _ _ h⟩

/-! ## Claim C4 -/

/-- C4 (amended): in Adaptive mode, on any tick with no switch in progress,
if the road not currently green has gone without GREEN for longer than the
anti-starvation threshold and the current green duration strictly exceeds
the minimum green duration, a switch is initiated — regardless of the car
set, hence even when the waiting road's pressure is lower. -/
theorem C4_anti_starvation (s : SignalController) (cars : List Car) (dt t : ℚ)
    (hty : s.controller_type = .ai) (hsw : s.switching = false)
    (hwait : t - s.lastGreen s.waitingRoad > Config.ANTI_STARVATION_TIME)
    (hmin : s.current_green_time + dt > Config.MIN_GREEN_TIME) :
    (s.update cars dt t).switching = true := by
  have hb : (bump s dt).controller_type = .ai := hty
  have hsw' : (bump s dt).switching = false := hsw
  have he : s.update cars dt t = (bump s dt).update_ai_signals cars t := by
    rw [update_eq_bump, hb]
  rw [he]
  obtain ⟨s1, hs1, hres⟩ := update_ai_nonswitching_cases (bump s dt) cars t hsw'
  rcases hres with ⟨hupd, hnot⟩ | ⟨hupd, -, -⟩
  · rcases hs1 with rfl | rfl | ⟨rfl, -⟩
    · exact absurd ⟨hwait, hmin⟩ hnot
    · exact absurd ⟨hwait, hmin⟩ hnot
    · rw [hupd]
      rfl
  · rw [hupd]
    rfl

/-- Witness for C4 (amended): a starved main road (last green 130 s ago)
while side has been green for 10 s; the tick of 3 s pushes the green time
past the minimum and initiates the switch with an empty car set (both
pressures 0). -/
theorem C4_anti_starvation_witness :
    ({ SignalController.init .ai 0 with
        main_signal := .RED, side_signal := .GREEN,
        current_green_time := 10 } : SignalController).controller_type = .ai ∧
    ({ SignalController.init .ai 0 with
        main_signal := .RED, side_signal := .GREEN,
        current_green_time := 10 } : SignalController).switching = false ∧
    (130:ℚ) - ({ SignalController.init .ai 0 with
        main_signal := .RED, side_signal := .GREEN,
        current_green_time := 10 } : SignalController).lastGreen
      ({ SignalController.init .ai 0 with
        main_signal := .RED, side_signal := .GREEN,
        current_green_time := 10 } : SignalController).waitingRoad >
      Config.ANTI_STARVATION_TIME ∧
    ({ SignalController.init .ai 0 with
        main_signal := .RED, side_signal := .GREEN,
        current_green_time := 10 } : SignalController).current_green_time + 3 >
      Config.MIN_GREEN_TIME ∧
    (({ SignalController.init .ai 0 with
        main_signal := .RED, side_signal := .GREEN,
        current_green_time := 10 } : SignalController).update [] 3 130).switching
      = true := by
  have hw : (130:ℚ) - ({ SignalController.init .ai 0 with
      main_signal := .RED, side_signal := .GREEN,
      current_green_time := 10 } : SignalController).lastGreen
      ({ SignalController.init .ai 0 with
        main_signal := .RED, side_signal := .GREEN,
        current_green_time := 10 } : SignalController).waitingRoad >
      Config.ANTI_STARVATION_TIME := by
    simp [SignalController.lastGreen, SignalController.waitingRoad,
      SignalController.activeRoad, Road.other, SignalController.init,
      Config.ANTI_STARVATION_TIME]
    norm_num
  have hm : ({ SignalController.init .ai 0 with
      main_signal := .RED, side_signal := .GREEN,
      current_green_time := 10 } : SignalController).current_green_time + 3 >
      Config.MIN_GREEN_TIME := by
    norm_num [SignalController.init, Config.MIN_GREEN_TIME]
  exact ⟨rfl, rfl, hw, hm,
    C4_anti_starvation _ [] 3 130 rfl rfl hw hm⟩

/-- The reachable state behind the C4 counterexample: a fresh adaptive run,
a max-green switch at t = 130 granting side the green at t = 247, then a
quiet frame. -/
def c4run : SimState :=
  simStep (simStep (simStep (simStep ⟨SignalController.init .ai 0, 0⟩ [] 130)
    [] 115) [] 2) [] 0

/-- C4 counterexample: at `c4run` (side GREEN since t = 247, main stampless
since t = 130) a 12-second frame makes the green duration exactly the
minimum (12 = MIN_GREEN_TIME, "satisfied") while main has waited 129 s >
120 s — yet no switch is initiated, because the code requires the green
time to strictly exceed the minimum. -/
theorem C4_counterexample :
    c4run.ctrl.controller_type = .ai ∧
    c4run.ctrl.switching = false ∧
    c4run.ctrl.main_signal = .RED ∧
    c4run.ctrl.side_signal = .GREEN ∧
    (simStep c4run [] 12).sim_time -
      c4run.ctrl.lastGreen c4run.ctrl.waitingRoad = 129 ∧
    (simStep c4run [] 12).ctrl.current_green_time = Config.MIN_GREEN_TIME ∧
    (simStep c4run [] 12).ctrl.switching = false := by
  have e1 : simStep ⟨SignalController.init .ai 0, 0⟩ [] 130 =
      ⟨{ controller_type := .ai, main_signal := .GREEN, side_signal := .RED,
         signal_timer := 130, current_green_time := 0, last_ai_update := 130,
         last_switch_time := 130, main_last_green := 130, side_last_green := 0,
         switching := true, switch_stage := 0, switch_start_time := 130,
         arrival_history_main := [], arrival_history_side := [] }, 130⟩ := by
    norm_num [simStep, SignalController.update, SignalController.update_ai_signals,
      SignalController.make_ai_decision, SignalController.initiate_signal_switch,
      SignalController.calculate_pressure, SignalController.get_queue_length,
      SignalController.get_arrival_rate, SignalController.get_average_wait_time,
      SignalController.history, SignalController.handle_signal_switching,
      SignalController.lastGreen, SignalController.waitingRoad,
      SignalController.activeRoad, Road.other, shouldSwitchDecision,
      SignalController.init, List.filter, Config.AI_UPDATE_INTERVAL,
      Config.MIN_GREEN_TIME, Config.MAX_GREEN_TIME, Config.COOLDOWN_TIME,
      Config.ANTI_STARVATION_TIME, Config.HYSTERESIS_MARGIN,
      Config.PRESSURE_ALPHA, Config.PRESSURE_BETA,
      Config.FIXED_YELLOW_TIME, Config.FIXED_ALL_RED_TIME]
  have e2 : simStep
      (⟨{ controller_type := .ai, main_signal := .GREEN,
          side_signal := .RED, signal_timer := 130, current_green_time := 0,
          last_ai_update := 130, last_switch_time := 130, main_last_green := 130,
          side_last_green := 0, switching := true, switch_stage := 0,
          switch_start_time := 130, arrival_history_main := [],
          arrival_history_side := [] }, 130⟩ : SimState) [] 115 =
      ⟨{ controller_type := .ai, main_signal := .YELLOW, side_signal := .RED,
         signal_timer := 245, current_green_time := 115, last_ai_update := 130,
         last_switch_time := 130, main_last_green := 130, side_last_green := 0,
         switching := true, switch_stage := 1, switch_start_time := 245,
         arrival_history_main := [], arrival_history_side := [] }, 245⟩ := by
    norm_num [simStep, SignalController.update, SignalController.update_ai_signals,
      SignalController.handle_signal_switching, Config.FIXED_YELLOW_TIME,
      Config.FIXED_ALL_RED_TIME]
  have e3 : simStep
      (⟨{ controller_type := .ai, main_signal := .YELLOW,
          side_signal := .RED, signal_timer := 245, current_green_time := 115,
          last_ai_update := 130, last_switch_time := 130, main_last_green := 130,
          side_last_green := 0, switching := true, switch_stage := 1,
          switch_start_time := 245, arrival_history_main := [],
          arrival_history_side := [] }, 245⟩ : SimState) [] 2 =
      ⟨{ controller_type := .ai, main_signal := .ALL_RED, side_signal := .ALL_RED,
         signal_timer := 247, current_green_time := 117, last_ai_update := 130,
         last_switch_time := 130, main_last_green := 130, side_last_green := 0,
         switching := true, switch_stage := 2, switch_start_time := 247,
         arrival_history_main := [], arrival_history_side := [] }, 247⟩ := by
    norm_num [simStep, SignalController.update, SignalController.update_ai_signals,
      SignalController.handle_signal_switching, Config.FIXED_YELLOW_TIME,
      Config.FIXED_ALL_RED_TIME]
  have e4 : simStep
      (⟨{ controller_type := .ai, main_signal := .ALL_RED,
          side_signal := .ALL_RED, signal_timer := 247, current_green_time := 117,
          last_ai_update := 130, last_switch_time := 130, main_last_green := 130,
          side_last_green := 0, switching := true, switch_stage := 2,
          switch_start_time := 247, arrival_history_main := [],
          arrival_history_side := [] }, 247⟩ : SimState) [] 0 =
      ⟨{ controller_type := .ai, main_signal := .RED, side_signal := .GREEN,
         signal_timer := 247, current_green_time := 0, last_ai_update := 130,
         last_switch_time := 130, main_last_green := 130, side_last_green := 0,
         switching := false, switch_stage := 2, switch_start_time := 247,
         arrival_history_main := [], arrival_history_side := [] }, 247⟩ := by
    norm_num [simStep, SignalController.update, SignalController.update_ai_signals,
      SignalController.handle_signal_switching, Config.FIXED_YELLOW_TIME,
      Config.FIXED_ALL_RED_TIME]
  have hrun : c4run =
      ⟨{ controller_type := .ai, main_signal := .RED,
         side_signal := .GREEN, signal_timer := 247, current_green_time := 0,
         last_ai_update := 130, last_switch_time := 130, main_last_green := 130,
         side_last_green := 0, switching := false, switch_stage := 2,
         switch_start_time := 247, arrival_history_main := [],
         arrival_history_side := [] }, 247⟩ := by
    rw [c4run, e1, e2, e3, e4]
  rw [hrun]
  norm_num [simStep, SignalController.update, SignalController.update_ai_signals,
    SignalController.make_ai_decision, SignalController.initiate_signal_switch,
    SignalController.calculate_pressure, SignalController.get_queue_length,
    SignalController.get_arrival_rate, SignalController.get_average_wait_time,
    SignalController.history, SignalController.handle_signal_switching,
    SignalController.lastGreen, SignalController.waitingRoad,
    SignalController.activeRoad, Road.other, shouldSwitchDecision,
    List.filter, Config.AI_UPDATE_INTERVAL, Config.MIN_GREEN_TIME,
    Config.MAX_GREEN_TIME, Config.COOLDOWN_TIME, Config.ANTI_STARVATION_TIME,
    Config.HYSTERESIS_MARGIN, Config.PRESSURE_ALPHA, Config.PRESSURE_BETA,
    Config.FIXED_YELLOW_TIME, Config.FIXED_ALL_RED_TIME]
  simp [SignalController.lastGreen, SignalController.waitingRoad,
    SignalController.activeRoad, Road.other]
  norm_num

/-! ## Claim C2: helper lemmas -/

/-- Uninterruptibility: while a switch is in progress an adaptive tick runs
only the sub-state machine, so the car set (hence any pressure reading) is
irrelevant to the next state. -/
lemma simStep_switching_cars_irrelevant (q : SimState) (cars cars' : List Car)
    (dt : ℚ) (hty : q.ctrl.controller_type = .ai)
    (hsw : q.ctrl.switching = true) :
    simStep q cars dt = simStep q cars' dt := by
  have hb : (bump q.ctrl dt).controller_type = .ai := hty
  have hsw' : (bump q.ctrl dt).switching = true := hsw
  show (⟨q.ctrl.update cars dt (q.sim_time + dt), q.sim_time + dt⟩ : SimState) =
    ⟨q.ctrl.update cars' dt (q.sim_time + dt), q.sim_time + dt⟩
  rw [update_eq_bump, update_eq_bump, hb]
  simp only [SignalController.update_ai_signals, hsw', if_true]

/-- An adaptive tick out of a non-switching reachable state that sets
`switching` enters the sub-machine at stage 0, and stamps the road holding
GREEN with the current time, strictly newer than the other road's stamp. -/
lemma initiate_tick_facts (s : SimState) (cars0 : List Car) (dt0 : ℚ)
    (hr : Reach s) (hty : s.ctrl.controller_type = .ai)
    (hsw : s.ctrl.switching = false) (g : Road)
    (hg : s.ctrl.get_signal_state g = .GREEN)
    (hpost : (simStep s cars0 dt0).ctrl.switching = true) :
    (simStep s cars0 dt0).ctrl.controller_type = .ai ∧
    (simStep s cars0 dt0).ctrl.switch_stage = 0 ∧
    (simStep s cars0 dt0).ctrl.lastGreen (Road.other g) <
      (simStep s cars0 dt0).ctrl.lastGreen g := by
  obtain ⟨h1, h2, h3⟩ := reach_AIInv s hr
  obtain ⟨hone, hmge, hmne⟩ := h3 hty hsw
  have hb : (bump s.ctrl dt0).controller_type = .ai := hty
  have hsw' : (bump s.ctrl dt0).switching = false := hsw
  have hctrl : (simStep s cars0 dt0).ctrl =
      (bump s.ctrl dt0).update_ai_signals cars0 (s.sim_time + dt0) := by
    show s.ctrl.update cars0 dt0 (s.sim_time + dt0) = _
    rw [update_eq_bump, hb]
  rw [hctrl] at hpost ⊢
  obtain ⟨s1, hs1, hres⟩ :=
    update_ai_nonswitching_cases (bump s.ctrl dt0) cars0 (s.sim_time + dt0) hsw'
  -- Generic stamp-gap fact for an initiation from any intermediate state
  -- whose signals and stamps agree with the pre-tick controller.
  have hgap : ∀ s2 : SignalController,
      s2.main_signal = s.ctrl.main_signal →
      s2.side_signal = s.ctrl.side_signal →
      s2.main_last_green = s.ctrl.main_last_green →
      s2.side_last_green = s.ctrl.side_last_green →
      (12:ℚ) ≤ s.ctrl.current_green_time + dt0 →
      (s2.initiate_signal_switch (s.sim_time + dt0)).lastGreen (Road.other g) <
        (s2.initiate_signal_switch (s.sim_time + dt0)).lastGreen g := by
    intro s2 em es emlg eslg hmin
    cases g with
    | main =>
        have hmg : s.ctrl.main_signal = .GREEN := hg
        have hside := hmge hmg
        have e1 : (s2.initiate_signal_switch (s.sim_time + dt0)).lastGreen .main =
            s.sim_time + dt0 := by
          show (if s2.main_signal = .GREEN then s.sim_time + dt0
            else s2.main_last_green) = s.sim_time + dt0
          rw [em, if_pos hmg]
        have e2 : (s2.initiate_signal_switch (s.sim_time + dt0)).lastGreen .side =
            s.ctrl.side_last_green := by
          show (if s2.main_signal ≠ .GREEN ∧ s2.side_signal = .GREEN
            then s.sim_time + dt0 else s2.side_last_green) =
            s.ctrl.side_last_green
          rw [em, es]
          rw [if_neg (fun hcon => hcon.1 hmg)]
          exact eslg
        show (s2.initiate_signal_switch (s.sim_time + dt0)).lastGreen .side <
          (s2.initiate_signal_switch (s.sim_time + dt0)).lastGreen .main
        rw [e1, e2]
        linarith
    | side =>
        have hsg : s.ctrl.side_signal = .GREEN := hg
        have hmn : s.ctrl.main_signal ≠ .GREEN := by
          rcases hone with ⟨-, hns⟩ | ⟨-, hnm⟩
          · exact absurd hsg hns
          · exact hnm
        have hmain := hmne hmn
        have e1 : (s2.initiate_signal_switch (s.sim_time + dt0)).lastGreen .side =
            s.sim_time + dt0 := by
          show (if s2.main_signal ≠ .GREEN ∧ s2.side_signal = .GREEN
            then s.sim_time + dt0 else s2.side_last_green) = s.sim_time + dt0
          rw [em, es]
          rw [if_pos ⟨hmn, hsg⟩]
        have e2 : (s2.initiate_signal_switch (s.sim_time + dt0)).lastGreen .main =
            s.ctrl.main_last_green := by
          show (if s2.main_signal = .GREEN then s.sim_time + dt0
            else s2.main_last_green) = s.ctrl.main_last_green
          rw [em]
          rw [if_neg hmn]
          exact emlg
        show (s2.initiate_signal_switch (s.sim_time + dt0)).lastGreen .main <
          (s2.initiate_signal_switch (s.sim_time + dt0)).lastGreen .side
        rw [e1, e2]
        linarith
  have cvt : ∀ x : ℚ, Config.MIN_GREEN_TIME ≤ x →
      (bump s.ctrl dt0).current_green_time = x →
      (12:ℚ) ≤ s.ctrl.current_green_time + dt0 := by
    intro x hx he
    have hb2 : (bump s.ctrl dt0).current_green_time =
        s.ctrl.current_green_time + dt0 := rfl
    rw [hb2] at he
    rw [he]
    simpa [Config.MIN_GREEN_TIME] using hx
  rcases hres with ⟨hupd, -⟩ | ⟨hupd, -, hA2⟩
  · -- no anti-starvation initiation: the decision loop must have initiated
    rw [hupd] at hpost ⊢
    rcases hs1 with rfl | rfl | ⟨rfl, hmin⟩
    · exact absurd hpost (by simp [hsw'])
    · exact absurd hpost (by simp [hsw'])
    · have hmin' : (12:ℚ) ≤ s.ctrl.current_green_time + dt0 :=
        cvt _ hmin rfl
      exact ⟨hty, rfl, hgap (bump s.ctrl dt0) rfl rfl rfl rfl hmin'⟩
  · -- anti-starvation initiated the switch from the intermediate state
    rw [hupd] at hpost ⊢
    rcases hs1 with rfl | rfl | ⟨rfl, -⟩
    · have hmin' : (12:ℚ) ≤ s.ctrl.current_green_time + dt0 :=
        cvt _ (le_of_lt hA2) rfl
      exact ⟨hty, rfl, hgap (bump s.ctrl dt0) rfl rfl rfl rfl hmin'⟩
    · have hmin' : (12:ℚ) ≤ s.ctrl.current_green_time + dt0 :=
        cvt _ (le_of_lt hA2) rfl
      exact ⟨hty, rfl,
        hgap { bump s.ctrl dt0 with last_ai_update := s.sim_time + dt0 }
          rfl rfl rfl rfl hmin'⟩
    · -- a double initiation is impossible: the freshly initiated state has
      -- green time 0, below the minimum
      exfalso
      have h0 : (0:ℚ) > Config.MIN_GREEN_TIME := hA2
      norm_num [Config.MIN_GREEN_TIME] at h0

/-- Once the adaptive sub-machine is at stage 0, any infinite tick sequence
with unbounded simulation time runs stage 0 (Yellow) for a while, then
stage 1 (AllRed), then stage 2, and completes at the next tick, granting
GREEN by comparing the frozen last-green stamps. -/
lemma switching_completes (carsf : ℕ → List Car) (dtf : ℕ → ℚ) (p : SimState)
    (hdt : ∀ n, 0 ≤ dtf n)
    (hty : p.ctrl.controller_type = .ai)
    (hsw : p.ctrl.switching = true)
    (hst : p.ctrl.switch_stage = 0)
    (hub : ∀ T : ℚ, ∃ n, T < (iterSteps carsf dtf p n).sim_time) :
    ∃ a b : ℕ, a < b ∧
      (∀ i, i ≤ a → (iterSteps carsf dtf p i).ctrl.switching = true ∧
        (iterSteps carsf dtf p i).ctrl.switch_stage = 0) ∧
      (∀ i, a < i → i ≤ b → (iterSteps carsf dtf p i).ctrl.switching = true ∧
        (iterSteps carsf dtf p i).ctrl.switch_stage = 1) ∧
      ((iterSteps carsf dtf p (b+1)).ctrl.switching = true ∧
        (iterSteps carsf dtf p (b+1)).ctrl.switch_stage = 2) ∧
      (iterSteps carsf dtf p (b+2)).ctrl.switching = false ∧
      (p.ctrl.side_last_green < p.ctrl.main_last_green →
        (iterSteps carsf dtf p (b+2)).ctrl.side_signal = .GREEN ∧
        (iterSteps carsf dtf p (b+2)).ctrl.main_signal = .RED) ∧
      (¬ p.ctrl.side_last_green < p.ctrl.main_last_green →
        (iterSteps carsf dtf p (b+2)).ctrl.main_signal = .GREEN ∧
        (iterSteps carsf dtf p (b+2)).ctrl.side_signal = .RED) := by
  have htime : ∀ n, (iterSteps carsf dtf p (n+1)).sim_time =
      (iterSteps carsf dtf p n).sim_time + dtf n := fun n => rfl
  have hmono : ∀ n k, (iterSteps carsf dtf p n).sim_time ≤
      (iterSteps carsf dtf p (n+k)).sim_time := by
    intro n k
    induction k with
    | zero => exact le_refl _
    | succ k ih =>
        have h0 := hdt (n+k)
        have h1 := htime (n+k)
        have : (iterSteps carsf dtf p (n+k)).sim_time ≤
            (iterSteps carsf dtf p (n+k+1)).sim_time := by
          rw [h1]; linarith
        exact le_trans ih this
  -- Phase 0: stage 0 holds while ticks stay below σ0 + yellow
  have hQ0 : ∀ i, (∀ j, j < i → (iterSteps carsf dtf p (j+1)).sim_time <
      p.ctrl.switch_start_time + 3) →
      (iterSteps carsf dtf p i).ctrl.switching = true ∧
      (iterSteps carsf dtf p i).ctrl.switch_stage = 0 ∧
      (iterSteps carsf dtf p i).ctrl.switch_start_time =
        p.ctrl.switch_start_time ∧
      (iterSteps carsf dtf p i).ctrl.controller_type = .ai ∧
      (iterSteps carsf dtf p i).ctrl.main_last_green = p.ctrl.main_last_green ∧
      (iterSteps carsf dtf p i).ctrl.side_last_green = p.ctrl.side_last_green := by
    intro i
    induction i with
    | zero => exact fun _ => ⟨hsw, hst, rfl, hty, rfl, rfl⟩
    | succ i ih =>
        intro hj
        obtain ⟨q1, q2, q3, q4, q5, q6⟩ := ih (fun j hji => hj j (by omega))
        have hlt := hj i (by omega)
        rw [htime i] at hlt
        have htlt : ¬ ((iterSteps carsf dtf p i).sim_time + dtf i -
            (iterSteps carsf dtf p i).ctrl.switch_start_time ≥
            Config.FIXED_YELLOW_TIME) := by
          rw [q3]
          norm_num [Config.FIXED_YELLOW_TIME]
          linarith
        have hstall := update_stage0_stall (iterSteps carsf dtf p i).ctrl
          (carsf i) (dtf i) ((iterSteps carsf dtf p i).sim_time + dtf i)
          q4 q1 q2 htlt
        have hstamp := update_switching_stamps (iterSteps carsf dtf p i).ctrl
          (carsf i) (dtf i) ((iterSteps carsf dtf p i).sim_time + dtf i) q4 q1
        have hct := update_controller_type (iterSteps carsf dtf p i).ctrl
          (carsf i) (dtf i) ((iterSteps carsf dtf p i).sim_time + dtf i)
        exact ⟨hstall.1, hstall.2.1, hstall.2.2.trans q3, hct.trans q4,
          hstamp.1.trans q5, hstamp.2.trans q6⟩
  have hex0 : ∃ k, p.ctrl.switch_start_time + 3 ≤
      (iterSteps carsf dtf p (k+1)).sim_time := by
    obtain ⟨n, hn⟩ := hub (p.ctrl.switch_start_time + 3)
    refine ⟨n, le_trans (le_of_lt hn) ?_⟩
    exact hmono n 1
  obtain ⟨a, ha_spec, ha_min⟩ : ∃ a : ℕ,
      (p.ctrl.switch_start_time + 3 ≤ (iterSteps carsf dtf p (a+1)).sim_time) ∧
      ∀ j, j < a → ¬(p.ctrl.switch_start_time + 3 ≤
        (iterSteps carsf dtf p (j+1)).sim_time) :=
    ⟨Nat.find hex0, Nat.find_spec hex0, fun j hj => Nat.find_min hex0 hj⟩
  have hQ0a := hQ0 a (fun j hj => not_le.mp (ha_min j hj))
  obtain ⟨q1, q2, q3, q4, q5, q6⟩ := hQ0a
  -- the tick at index a advances to stage 1
  have hadv0 := update_stage0_adv (iterSteps carsf dtf p a).ctrl (carsf a)
    (dtf a) ((iterSteps carsf dtf p a).sim_time + dtf a) q4 q1 q2
    (by rw [q3]
        have := ha_spec
        rw [htime a] at this
        norm_num [Config.FIXED_YELLOW_TIME]
        linarith)
  have hstampa := update_switching_stamps (iterSteps carsf dtf p a).ctrl
    (carsf a) (dtf a) ((iterSteps carsf dtf p a).sim_time + dtf a) q4 q1
  have hcta := update_controller_type (iterSteps carsf dtf p a).ctrl
    (carsf a) (dtf a) ((iterSteps carsf dtf p a).sim_time + dtf a)
  -- facts at index a+1
  have r1 : (iterSteps carsf dtf p (a+1)).ctrl.switching = true := hadv0.1
  have r2 : (iterSteps carsf dtf p (a+1)).ctrl.switch_stage = 1 := hadv0.2.1
  have r3 : (iterSteps carsf dtf p (a+1)).ctrl.switch_start_time =
      (iterSteps carsf dtf p (a+1)).sim_time := by
    rw [htime a]
    exact hadv0.2.2
  have r4 : (iterSteps carsf dtf p (a+1)).ctrl.controller_type = .ai :=
    hcta.trans q4
  have r5 : (iterSteps carsf dtf p (a+1)).ctrl.main_last_green =
      p.ctrl.main_last_green := hstampa.1.trans q5
  have r6 : (iterSteps carsf dtf p (a+1)).ctrl.side_last_green =
      p.ctrl.side_last_green := hstampa.2.trans q6
  -- Phase 1: stage 1 holds while ticks stay below σ1 + all-red
  have hQ1 : ∀ k, (∀ j, j < k →
      (iterSteps carsf dtf p (a+1+j+1)).sim_time <
        (iterSteps carsf dtf p (a+1)).sim_time + 2) →
      (iterSteps carsf dtf p (a+1+k)).ctrl.switching = true ∧
      (iterSteps carsf dtf p (a+1+k)).ctrl.switch_stage = 1 ∧
      (iterSteps carsf dtf p (a+1+k)).ctrl.switch_start_time =
        (iterSteps carsf dtf p (a+1)).sim_time ∧
      (iterSteps carsf dtf p (a+1+k)).ctrl.controller_type = .ai ∧
      (iterSteps carsf dtf p (a+1+k)).ctrl.main_last_green =
        p.ctrl.main_last_green ∧
      (iterSteps carsf dtf p (a+1+k)).ctrl.side_last_green =
        p.ctrl.side_last_green := by
    intro k
    induction k with
    | zero => exact fun _ => ⟨r1, r2, r3, r4, r5, r6⟩
    | succ k ih =>
        intro hj
        obtain ⟨w1, w2, w3, w4, w5, w6⟩ := ih (fun j hjk => hj j (by omega))
        have hlt := hj k (by omega)
        rw [htime (a+1+k)] at hlt
        have htlt : ¬ ((iterSteps carsf dtf p (a+1+k)).sim_time + dtf (a+1+k) -
            (iterSteps carsf dtf p (a+1+k)).ctrl.switch_start_time ≥
            Config.FIXED_ALL_RED_TIME) := by
          rw [w3]
          norm_num [Config.FIXED_ALL_RED_TIME]
          linarith
        have hstall := update_stage1_stall (iterSteps carsf dtf p (a+1+k)).ctrl
          (carsf (a+1+k)) (dtf (a+1+k))
          ((iterSteps carsf dtf p (a+1+k)).sim_time + dtf (a+1+k)) w4 w1 w2 htlt
        have hstamp := update_switching_stamps
          (iterSteps carsf dtf p (a+1+k)).ctrl (carsf (a+1+k)) (dtf (a+1+k))
          ((iterSteps carsf dtf p (a+1+k)).sim_time + dtf (a+1+k)) w4 w1
        have hct := update_controller_type (iterSteps carsf dtf p (a+1+k)).ctrl
          (carsf (a+1+k)) (dtf (a+1+k))
          ((iterSteps carsf dtf p (a+1+k)).sim_time + dtf (a+1+k))
        exact ⟨hstall.1, hstall.2.1, hstall.2.2.trans w3, hct.trans w4,
          hstamp.1.trans w5, hstamp.2.trans w6⟩
  have hex1 : ∃ k, (iterSteps carsf dtf p (a+1)).sim_time + 2 ≤
      (iterSteps carsf dtf p (a+1+k+1)).sim_time := by
    obtain ⟨n, hn⟩ := hub ((iterSteps carsf dtf p (a+1)).sim_time + 2)
    refine ⟨n, le_trans (le_of_lt hn) ?_⟩
    have : n ≤ a+1+n+1 := by omega
    obtain ⟨k, hk⟩ := Nat.exists_eq_add_of_le this
    rw [hk]
    exact hmono n k
  obtain ⟨c, hc_spec, hc_min⟩ : ∃ c : ℕ,
      ((iterSteps carsf dtf p (a+1)).sim_time + 2 ≤
        (iterSteps carsf dtf p (a+1+c+1)).sim_time) ∧
      ∀ j, j < c → ¬((iterSteps carsf dtf p (a+1)).sim_time + 2 ≤
        (iterSteps carsf dtf p (a+1+j+1)).sim_time) :=
    ⟨Nat.find hex1, Nat.find_spec hex1, fun j hj => Nat.find_min hex1 hj⟩
  have hQ1c := hQ1 c (fun j hj => not_le.mp (hc_min j hj))
  obtain ⟨w1, w2, w3, w4, w5, w6⟩ := hQ1c
  -- the tick at index a+1+c advances to stage 2
  have hadv1 := update_stage1_adv (iterSteps carsf dtf p (a+1+c)).ctrl
    (carsf (a+1+c)) (dtf (a+1+c))
    ((iterSteps carsf dtf p (a+1+c)).sim_time + dtf (a+1+c)) w4 w1 w2
    (by rw [w3]
        have := hc_spec
        rw [htime (a+1+c)] at this
        norm_num [Config.FIXED_ALL_RED_TIME]
        linarith)
  have hstampc := update_switching_stamps (iterSteps carsf dtf p (a+1+c)).ctrl
    (carsf (a+1+c)) (dtf (a+1+c))
    ((iterSteps carsf dtf p (a+1+c)).sim_time + dtf (a+1+c)) w4 w1
  have hctc := update_controller_type (iterSteps carsf dtf p (a+1+c)).ctrl
    (carsf (a+1+c)) (dtf (a+1+c))
    ((iterSteps carsf dtf p (a+1+c)).sim_time + dtf (a+1+c))
  have v1 : (iterSteps carsf dtf p (a+1+c+1)).ctrl.switching = true := hadv1.1
  have v2 : (iterSteps carsf dtf p (a+1+c+1)).ctrl.switch_stage = 2 :=
    hadv1.2.1
  have v4 : (iterSteps carsf dtf p (a+1+c+1)).ctrl.controller_type = .ai :=
    hctc.trans w4
  have v5 : (iterSteps carsf dtf p (a+1+c+1)).ctrl.main_last_green =
      p.ctrl.main_last_green := hstampc.1.trans w5
  have v6 : (iterSteps carsf dtf p (a+1+c+1)).ctrl.side_last_green =
      p.ctrl.side_last_green := hstampc.2.trans w6
  -- the tick at index a+1+c+1 grants the new green and ends switching
  have hgrant := update_stage2_grant (iterSteps carsf dtf p (a+1+c+1)).ctrl
    (carsf (a+1+c+1)) (dtf (a+1+c+1))
    ((iterSteps carsf dtf p (a+1+c+1)).sim_time + dtf (a+1+c+1)) v4 v1 v2
  refine ⟨a, a+1+c, by omega, ?_, ?_, ⟨v1, v2⟩, hgrant.1, ?_, ?_⟩
  · intro i hi
    obtain ⟨z1, z2, -⟩ := hQ0 i (fun j hj => not_le.mp (ha_min j (by omega)))
    exact ⟨z1, z2⟩
  · intro i hai hib
    obtain ⟨k, rfl⟩ : ∃ k, i = a+1+k := ⟨i - (a+1), by omega⟩
    obtain ⟨z1, z2, -⟩ := hQ1 k (fun j hj => not_le.mp (hc_min j (by omega)))
    exact ⟨z1, z2⟩
  · intro hcmp
    have := hgrant.2.2.1 (by rw [v5, v6]; exact hcmp)
    exact this
  · intro hcmp
    have := hgrant.2.2.2 (by rw [v5, v6]; exact hcmp)
    exact this

/-- C2: once `initiate_signal_switch` fires in Adaptive mode, (i) ticks
while switching ignore the car set entirely — new pressure readings cannot
interrupt the sequence; (ii) from the initiating tick, any future with
unbounded simulation time runs Yellow (stage 0), then AllRed (stage 1),
then the granting stage 2, and completes, giving GREEN to the road whose
last-green stamp is strictly older — never to the road `g` that just held
green, which becomes RED. -/
theorem C2_switch_sequence :
    (∀ (q : SimState) (cars cars' : List Car) (dt : ℚ),
      q.ctrl.controller_type = .ai → q.ctrl.switching = true →
      simStep q cars dt = simStep q cars' dt) ∧
    (∀ (s : SimState) (cars0 : List Car) (dt0 : ℚ),
      0 ≤ dt0 → Reach s → s.ctrl.controller_type = .ai →
      s.ctrl.switching = false →
      ∀ g : Road, s.ctrl.get_signal_state g = .GREEN →
      (simStep s cars0 dt0).ctrl.switching = true →
      ∀ (carsf : ℕ → List Car) (dtf : ℕ → ℚ),
        (∀ n, 0 ≤ dtf n) →
        (∀ T : ℚ, ∃ n, T <
          (iterSteps carsf dtf (simStep s cars0 dt0) n).sim_time) →
        (simStep s cars0 dt0).ctrl.lastGreen (Road.other g) <
          (simStep s cars0 dt0).ctrl.lastGreen g ∧
        ∃ a b : ℕ, a < b ∧
          (∀ i, i ≤ a →
            (iterSteps carsf dtf (simStep s cars0 dt0) i).ctrl.switching = true ∧
            (iterSteps carsf dtf (simStep s cars0 dt0) i).ctrl.switch_stage = 0) ∧
          (∀ i, a < i → i ≤ b →
            (iterSteps carsf dtf (simStep s cars0 dt0) i).ctrl.switching = true ∧
            (iterSteps carsf dtf (simStep s cars0 dt0) i).ctrl.switch_stage = 1) ∧
          ((iterSteps carsf dtf (simStep s cars0 dt0) (b+1)).ctrl.switching = true ∧
            (iterSteps carsf dtf (simStep s cars0 dt0) (b+1)).ctrl.switch_stage = 2) ∧
          (iterSteps carsf dtf (simStep s cars0 dt0) (b+2)).ctrl.switching = false ∧
          (iterSteps carsf dtf (simStep s cars0 dt0) (b+2)).ctrl.get_signal_state
            (Road.other g) = .GREEN ∧
          (iterSteps carsf dtf (simStep s cars0 dt0) (b+2)).ctrl.get_signal_state
            g = .RED) := by
  refine ⟨simStep_switching_cars_irrelevant, ?_⟩
  intro s cars0 dt0 hdt0 hr hty hsw g hg hpost carsf dtf hdtf hub
  obtain ⟨fty, fstage, fgap⟩ :=
    initiate_tick_facts s cars0 dt0 hr hty hsw g hg hpost
  obtain ⟨a, b, hab, ph0, ph1, ph2, hdone, hgS, hgM⟩ :=
    switching_completes carsf dtf (simStep s cars0 dt0) hdtf fty hpost
      fstage hub
  refine ⟨fgap, a, b, hab, ph0, ph1, ph2, hdone, ?_, ?_⟩ <;>
    cases g with
  | main =>
      have hcmp : (simStep s cars0 dt0).ctrl.side_last_green <
          (simStep s cars0 dt0).ctrl.main_last_green := fgap
      first
        | exact (hgS hcmp).1
        | exact (hgS hcmp).2
  | side =>
      have hcmp : ¬ (simStep s cars0 dt0).ctrl.side_last_green <
          (simStep s cars0 dt0).ctrl.main_last_green :=
        not_lt.mpr (le_of_lt fgap)
      first
        | exact (hgM hcmp).1
        | exact (hgM hcmp).2

/-- Witness for C2 at a concrete run: fresh adaptive controller, one
130-second tick triggers the max-green switch (main was green), then
one-second frames forever. -/
theorem C2_switch_sequence_witness :
    (0:ℚ) ≤ 130 ∧
    (⟨SignalController.init .ai 0, 0⟩ : SimState).ctrl.switching = false ∧
    (simStep ⟨SignalController.init .ai 0, 0⟩ [] 130).ctrl.switching = true ∧
    ((simStep ⟨SignalController.init .ai 0, 0⟩ [] 130).ctrl.lastGreen
        (Road.other .main) <
      (simStep ⟨SignalController.init .ai 0, 0⟩ [] 130).ctrl.lastGreen .main ∧
    ∃ a b : ℕ, a < b ∧
      (∀ i, i ≤ a →
        (iterSteps (fun _ => []) (fun _ => 1)
          (simStep ⟨SignalController.init .ai 0, 0⟩ [] 130) i).ctrl.switching
          = true ∧
        (iterSteps (fun _ => []) (fun _ => 1)
          (simStep ⟨SignalController.init .ai 0, 0⟩ [] 130) i).ctrl.switch_stage
          = 0) ∧
      (∀ i, a < i → i ≤ b →
        (iterSteps (fun _ => []) (fun _ => 1)
          (simStep ⟨SignalController.init .ai 0, 0⟩ [] 130) i).ctrl.switching
          = true ∧
        (iterSteps (fun _ => []) (fun _ => 1)
          (simStep ⟨SignalController.init .ai 0, 0⟩ [] 130) i).ctrl.switch_stage
          = 1) ∧
      ((iterSteps (fun _ => []) (fun _ => 1)
          (simStep ⟨SignalController.init .ai 0, 0⟩ [] 130) (b+1)).ctrl.switching
          = true ∧
        (iterSteps (fun _ => []) (fun _ => 1)
          (simStep ⟨SignalController.init .ai 0, 0⟩ [] 130) (b+1)).ctrl.switch_stage
          = 2) ∧
      (iterSteps (fun _ => []) (fun _ => 1)
        (simStep ⟨SignalController.init .ai 0, 0⟩ [] 130) (b+2)).ctrl.switching
        = false ∧
      (iterSteps (fun _ => []) (fun _ => 1)
        (simStep ⟨SignalController.init .ai 0, 0⟩ [] 130)
          (b+2)).ctrl.get_signal_state (Road.other .main) = .GREEN ∧
      (iterSteps (fun _ => []) (fun _ => 1)
        (simStep ⟨SignalController.init .ai 0, 0⟩ [] 130)
          (b+2)).ctrl.get_signal_state .main = .RED) := by
  have hswitch : (simStep ⟨SignalController.init .ai 0, 0⟩ [] 130).ctrl.switching
      = true := by
    norm_num [simStep, SignalController.update, SignalController.update_ai_signals,
      SignalController.make_ai_decision, SignalController.initiate_signal_switch,
      SignalController.calculate_pressure, SignalController.get_queue_length,
      SignalController.get_arrival_rate, SignalController.get_average_wait_time,
      SignalController.history, SignalController.handle_signal_switching,
      SignalController.lastGreen, SignalController.waitingRoad,
      SignalController.activeRoad, Road.other, shouldSwitchDecision,
      SignalController.init, List.filter, Config.AI_UPDATE_INTERVAL,
      Config.MIN_GREEN_TIME, Config.MAX_GREEN_TIME, Config.COOLDOWN_TIME,
      Config.ANTI_STARVATION_TIME, Config.HYSTERESIS_MARGIN,
      Config.PRESSURE_ALPHA, Config.PRESSURE_BETA,
      Config.FIXED_YELLOW_TIME, Config.FIXED_ALL_RED_TIME]
  have htimes : ∀ n : ℕ, (iterSteps (fun _ => []) (fun _ => 1)
      (simStep ⟨SignalController.init .ai 0, 0⟩ [] 130) n).sim_time =
      (simStep (⟨SignalController.init .ai 0, 0⟩ : SimState) [] 130).sim_time
        + n := by
    intro n
    induction n with
    | zero => simp [iterSteps]
    | succ n ih =>
        have : (iterSteps (fun _ => []) (fun _ => 1)
            (simStep ⟨SignalController.init .ai 0, 0⟩ [] 130) (n+1)).sim_time =
            (iterSteps (fun _ => []) (fun _ => 1)
              (simStep ⟨SignalController.init .ai 0, 0⟩ [] 130) n).sim_time + 1
          := rfl
        rw [this, ih]
        push_cast
        ring
  have hub : ∀ T : ℚ, ∃ n, T < (iterSteps (fun _ => []) (fun _ => 1)
      (simStep ⟨SignalController.init .ai 0, 0⟩ [] 130) n).sim_time := by
    intro T
    obtain ⟨n, hn⟩ := exists_nat_gt
      (T - (simStep (⟨SignalController.init .ai 0, 0⟩ : SimState) [] 130).sim_time)
    refine ⟨n, ?_⟩
    rw [htimes]
    linarith
  exact ⟨by norm_num, rfl, hswitch,
    C2_switch_sequence.2 ⟨SignalController.init .ai 0, 0⟩ [] 130 (by norm_num)
      (Reach.init .ai 0) rfl rfl .main rfl hswitch (fun _ => []) (fun _ => 1)
      (fun _ => by norm_num) hub⟩

end Traffic
